import Mathlib

/-!
Verification development for the Gangnam multi-modal RAPTOR journey planner
(`part2_raptor_algorithm.py`, transfer construction from `part1_data_loader.py`).

The Python code is shallowly embedded:
* Python `dict`s become association lists with first-key lookup and
  in-place update (`alookup` / `aset`), matching insertion-order semantics.
* Python `set`s collected during the search become duplicate-free lists in
  encounter order (`addNew`); the engine's behaviour is modelled for that
  fixed deterministic iteration order.
* floats become `ℚ`; `int(x)` truncation toward zero becomes `pyInt`,
  `math.ceil` becomes `pyCeil`, `sorted(key=...)` becomes the stable
  insertion sort `pySorted`.
* minutes-of-day and schedule times become `ℤ`; stop / route / trip
  identifiers become `ℕ`.
* the haversine great-circle distance (floating-point trigonometry) is an
  abstract parameter `hav : Pt → Pt → ℚ` of every definition that uses it.
* the external `networkx` shortest-path call, which either returns a path or
  raises `NetworkXNoPath` / `NodeNotFound`, is an `Option`-valued oracle
  field of `RoadGraph`.
-/

-- `Rat.add`/`sub`/`mul`/`inv` and `String.splitOnAux` ship `[irreducible]`;
-- unsealing them lets `decide` evaluate the embedded definitions on the
-- concrete witness inputs (the kernel re-checks every such proof).
attribute [local semireducible] Rat.add Rat.sub Rat.mul Rat.inv String.splitOnAux

/-- Python `min(a, b)` on rationals (explicit, so it evaluates by reduction). -/
def pyMinQ (a b : ℚ) : ℚ := if a ≤ b then a else b

/-- Python `max(a, b)` on rationals. -/
def pyMaxQ (a b : ℚ) : ℚ := if b ≤ a then a else b

/-- Python `min(a, b)` on integers. -/
def pyMinZ (a b : ℤ) : ℤ := if a ≤ b then a else b

/-- Python `max(a, b)` on integers. -/
def pyMaxZ (a b : ℤ) : ℤ := if b ≤ a then a else b

/-- Python `abs` on rationals. -/
def pyAbs (q : ℚ) : ℚ := if q < 0 then -q else q

/-- First-match lookup in an association list: Python `d[k]` / `d.get(k)`. -/
def alookup {κ α : Type} [DecidableEq κ] (m : List (κ × α)) (k : κ) : Option α :=
  (m.find? (fun p => p.1 = k)).map Prod.snd

/-- In-place update or append: Python `d[k] = v` on an insertion-ordered dict. -/
def aset {κ α : Type} [DecidableEq κ] (m : List (κ × α)) (k : κ) (v : α) : List (κ × α) :=
  match m with
  | [] => [(k, v)]
  | p :: rest => if p.1 = k then (k, v) :: rest else p :: aset rest k v

/-- Python `set.add` modelled on a duplicate-free list in encounter order. -/
def addNew {α : Type} [DecidableEq α] (l : List α) (a : α) : List α :=
  if a ∈ l then l else l ++ [a]

/-- Python `int(x)` on a float: truncation toward zero. -/
def pyInt (q : ℚ) : ℤ :=
  if 0 ≤ q then ((q.num.toNat / q.den : ℕ) : ℤ) else -(((-q.num).toNat / q.den : ℕ) : ℤ)

/-- Python `math.ceil` on a rational. -/
def pyCeil (q : ℚ) : ℤ := -(Int.fdiv (-q.num) (q.den : ℤ))

/-- Stable insertion of `x` after all entries whose key is `≤ key x`.
Keys are rationals; integer keys are coerced, which preserves the order
Python's comparison uses. -/
def sortInsert {α : Type} (key : α → ℚ) (x : α) : List α → List α
  | [] => [x]
  | y :: ys => if key y ≤ key x then y :: sortInsert key x ys else x :: y :: ys

/-- Python `sorted(l, key=key)`: a stable sort (insertion sort, which agrees
with timsort on every input because both are stable). -/
def pySorted {α : Type} (key : α → ℚ) (l : List α) : List α :=
  l.foldl (fun acc x => sortInsert key x acc) []

-- ==========================================================================
-- Engine constants (`GangnamMultiModalRAPTOR.__init__`)
-- ==========================================================================

def WALK_SPEED : ℚ := 9/2
def BIKE_SPEED : ℚ := 12
def MAX_WALK_TIME : ℚ := 15
def MAX_BIKE_TIME : ℚ := 20
def MAX_ROUNDS : ℕ := 5
def BIKE_RENTAL_TIME : ℤ := 2
def BASE_TRANSIT_FARE : ℚ := 1370
def BIKE_BASE_FARE : ℚ := 1000
def TRANSFER_DISCOUNT : ℚ := 300

-- ==========================================================================
-- Data model (dataclasses of `part2_raptor_algorithm.py`)
-- ==========================================================================

/-- `RaptorLabel`: per-stop best-known search state. -/
structure RaptorLabel where
  arrival_time : ℤ
  transfers : ℕ
  cost : ℚ
  parent_stop : Option ℕ := none
  trip_id : Option ℕ := none
  route_id : Option ℕ := none
  access_mode : String := "walk"
  round_number : ℕ := 0
  boarding_time : ℤ := 0
deriving DecidableEq

/-- `StopTime`: one scheduled stop of a trip (fields read by the engine). -/
structure StopTime where
  stop_id : ℕ
  arrival_time : ℤ
  departure_time : ℤ
deriving DecidableEq

/-- `Trip`: the engine only reads `stop_times` (service/direction metadata is
construction-time only). -/
structure Trip where
  stop_times : List StopTime
deriving DecidableEq

/-- `Route`: pattern and fare (name/colour strings are presentation only). -/
structure Route where
  route_type : ℤ := 3
  stop_pattern : List ℕ
  base_fare : ℚ
deriving DecidableEq

/-- `Stop`: coordinates and display name. -/
structure Stop where
  stop_name : String := ""
  stop_lat : ℚ
  stop_lon : ℚ
deriving DecidableEq

/-- `BikeStation`. -/
structure BikeStation where
  name : String := ""
  lat : ℚ
  lon : ℚ
deriving DecidableEq

abbrev Pt := ℚ × ℚ

/-- The `networkx` road graph together with its shortest-path oracle.
`shortest_path` models `nx.shortest_path` / `nx.shortest_path_length` with the
given weight attribute: `none` models a raised `NetworkXNoPath`/`NodeNotFound`.
`edge_distance` models `get_edge_data(..)['distance']`. -/
structure RoadGraph where
  nodes : List Pt
  shortest_path : Pt → Pt → String → Option (ℚ × List Pt)
  edge_distance : Pt → Pt → Option ℚ

/-- The engine object's data fields (`self.…` of `GangnamMultiModalRAPTOR`). -/
structure Sys where
  stops : List (ℕ × Stop) := []
  routes : List (ℕ × Route) := []
  trips : List (ℕ × Trip) := []
  route_to_trips : List (ℕ × List (ℕ × ℤ)) := []
  stop_to_routes : List (ℕ × List ℕ) := []
  transfers : List (ℕ × List (ℕ × ℤ)) := []
  bike_stations : List (ℕ × BikeStation) := []
  road_graph : Option RoadGraph := none

-- ==========================================================================
-- Label dominance (`_is_label_better`)
-- ==========================================================================

/-- `_is_label_better`: decides whether a candidate `(arrival, transfers, cost)`
replaces the incumbent label. -/
def is_label_better (new_arrival : ℤ) (new_transfers : ℕ) (new_cost : ℚ)
    (existing_label : Option RaptorLabel) : Bool :=
  match existing_label with
  | none => true
  | some l =>
    if new_arrival < l.arrival_time then true
    else if new_arrival = l.arrival_time ∧ new_transfers < l.transfers then true
    else if new_arrival = l.arrival_time ∧ new_transfers = l.transfers ∧
        new_cost < l.cost then true
    else if new_arrival ≤ l.arrival_time + 5 ∧ new_transfers < l.transfers then true
    else false

/-- The specification's dominance rule, written exactly as the spec states it:
clauses (a) no incumbent, (b) strictly earlier, (c) equal arrival and fewer
transfers, (d) equal arrival and transfers and lower cost, (e) within the
5-minute tolerance with fewer transfers. -/
def spec_dominates (new_arrival : ℤ) (new_transfers : ℕ) (new_cost : ℚ)
    (incumbent : Option RaptorLabel) : Prop :=
  match incumbent with
  | none => True
  | some l =>
      new_arrival < l.arrival_time
    ∨ (new_arrival = l.arrival_time ∧ new_transfers < l.transfers)
    ∨ (new_arrival = l.arrival_time ∧ new_transfers = l.transfers ∧ new_cost < l.cost)
    ∨ (new_arrival ≤ l.arrival_time + 5 ∧ new_transfers < l.transfers)

-- ==========================================================================
-- Core RAPTOR engine (`_execute_raptor_algorithm` and helpers)
-- ==========================================================================

/-- One access/egress stop record built by `_find_access_stops`. -/
structure AccessStop where
  stop_id : ℕ
  stop_name : String := ""
  access_time : ℤ
  egress_time : ℤ
  mode : String := "walk"
  distance : ℚ := 0
deriving DecidableEq

/-- `_find_best_trip_for_route`: over the route's pattern stops that are
marked, find the boarding with the earliest departure at or after the stop
label's arrival plus the 1-minute buffer; per trip the first feasible
stop-time is taken (the inner `break`), strict `<` keeps the earliest
encounter on ties. -/
def find_best_trip_for_route (sys : Sys) (route_id : ℕ) (marked_stops : List ℕ)
    (best_labels : List (ℕ × RaptorLabel)) : Option (ℕ × ℕ × ℤ) :=
  let route_marked_stops :=
    match alookup sys.routes route_id with
    | none => []
    | some route => route.stop_pattern.filter (fun s => s ∈ marked_stops)
  route_marked_stops.foldl (fun best stop_id =>
    match alookup best_labels stop_id with
    | none => best
    | some label =>
      let earliest_board_time := label.arrival_time + 1
      ((alookup sys.route_to_trips route_id).getD []).foldl (fun best tp =>
        match alookup sys.trips tp.1 with
        | none => best
        | some trip =>
          match trip.stop_times.find? (fun st =>
              st.stop_id = stop_id ∧ st.departure_time ≥ earliest_board_time) with
          | none => best
          | some st =>
            match best with
            | none => some (tp.1, stop_id, st.departure_time)
            | some prev =>
              if st.departure_time < prev.2.2 then some (tp.1, stop_id, st.departure_time)
              else best) best) none

/-- The propagation step of `_scan_route` for one stop-time after the
boarding stop: compute the candidate label and apply it when
`_is_label_better` accepts. -/
def scan_stop_time (route : Route) (route_id trip_id boarding_stop_id : ℕ)
    (boarding_time : ℤ) (boarding_label : RaptorLabel) (round_num : ℕ)
    (acc : List (ℕ × RaptorLabel) × List ℕ) (st : StopTime) :
    List (ℕ × RaptorLabel) × List ℕ :=
  if st.arrival_time ≤ boarding_time then acc
  else
    let new_arrival := st.arrival_time
    let new_transfers := boarding_label.transfers + 1
    let base_cost := boarding_label.cost + route.base_fare
    let new_cost :=
      if boarding_label.transfers > 0 then base_cost - TRANSFER_DISCOUNT
      else base_cost
    if is_label_better new_arrival new_transfers new_cost
        (alookup acc.1 st.stop_id) then
      (aset acc.1 st.stop_id
        { arrival_time := new_arrival, transfers := new_transfers,
          cost := new_cost, parent_stop := some boarding_stop_id,
          trip_id := some trip_id, route_id := some route_id,
          access_mode := "transit", round_number := round_num,
          boarding_time := boarding_time },
       addNew acc.2 st.stop_id)
    else acc

/-- `_scan_route`: board the best trip of the route and propagate a candidate
label to every stop-time after the boarding stop whose arrival is past the
boarding time, applying it when `_is_label_better` accepts.  Returns the
updated label map and the stops newly improved by this scan. -/
def scan_route (sys : Sys) (route_id : ℕ) (marked_stops : List ℕ)
    (best_labels : List (ℕ × RaptorLabel)) (round_num : ℕ) :
    List (ℕ × RaptorLabel) × List ℕ :=
  match alookup sys.routes route_id with
  | none => (best_labels, [])
  | some route =>
    match find_best_trip_for_route sys route_id marked_stops best_labels with
    | none => (best_labels, [])
    | some (trip_id, boarding_stop_id, boarding_time) =>
      -- in the engine a marked stop always carries a label (`best_labels[..]`)
      match alookup best_labels boarding_stop_id with
      | none => (best_labels, [])
      | some boarding_label =>
        match alookup sys.trips trip_id with
        | none => (best_labels, [])
        | some trip =>
          let rest := (trip.stop_times.dropWhile (fun st => st.stop_id ≠ boarding_stop_id)).tail
          rest.foldl (scan_stop_time route route_id trip_id boarding_stop_id
            boarding_time boarding_label round_num) (best_labels, [])

/-- One transfer-edge relaxation of `_process_transfers`: from the snapshot
entry `p`, relax the edge `e = (target, minutes)` against the live label map. -/
def relax_transfer (round_num : ℕ) (p : ℕ × RaptorLabel)
    (acc : List (ℕ × RaptorLabel) × List ℕ) (e : ℕ × ℤ) :
    List (ℕ × RaptorLabel) × List ℕ :=
  let new_arrival := p.2.arrival_time + e.2
  if is_label_better new_arrival p.2.transfers p.2.cost (alookup acc.1 e.1) then
    (aset acc.1 e.1
      { arrival_time := new_arrival, transfers := p.2.transfers,
        cost := p.2.cost, parent_stop := some p.1, trip_id := p.2.trip_id,
        route_id := p.2.route_id, access_mode := p.2.access_mode,
        round_number := round_num, boarding_time := p.2.boarding_time },
     addNew acc.2 e.1)
  else acc

/-- Relax every transfer edge of one snapshot entry. -/
def process_transfer_origin (sys : Sys) (round_num : ℕ)
    (acc : List (ℕ × RaptorLabel) × List ℕ) (p : ℕ × RaptorLabel) :
    List (ℕ × RaptorLabel) × List ℕ :=
  ((alookup sys.transfers p.1).getD []).foldl (relax_transfer round_num p) acc

/-- `_process_transfers`: iterate over a snapshot (`dict(best_labels)`) of ALL
current labels taken at the start of the phase, relaxing every transfer edge
of every labelled stop against the live label map. -/
def process_transfers (sys : Sys) (best_labels : List (ℕ × RaptorLabel))
    (round_num : ℕ) : List (ℕ × RaptorLabel) × List ℕ :=
  best_labels.foldl (process_transfer_origin sys round_num) (best_labels, [])

/-- Seed one access label (`transfers = 0`, `cost = 0`) and mark its stop. -/
def raptor_init_step (dep_time : ℤ) (acc : List (ℕ × RaptorLabel) × List ℕ)
    (a : AccessStop) : List (ℕ × RaptorLabel) × List ℕ :=
  (aset acc.1 a.stop_id
    { arrival_time := dep_time + a.access_time, transfers := 0, cost := 0,
      access_mode := a.mode, round_number := 0 },
   addNew acc.2 a.stop_id)

/-- Round 0 of `_execute_raptor_algorithm`: seed one label per access stop
(`transfers = 0`, `cost = 0`) and mark it. -/
def raptor_init (access_stops : List AccessStop) (dep_time : ℤ) :
    List (ℕ × RaptorLabel) × List ℕ :=
  access_stops.foldl (raptor_init_step dep_time) ([], [])

/-- Scan a single deduplicated route and merge its newly improved stops. -/
def scan_one_route (sys : Sys) (marked_stops : List ℕ) (round_num : ℕ)
    (acc : List (ℕ × RaptorLabel) × List ℕ) (r : ℕ) :
    List (ℕ × RaptorLabel) × List ℕ :=
  let res := scan_route sys r marked_stops acc.1 round_num
  (res.1, res.2.foldl addNew acc.2)

/-- The route-scanning phase of one round: each route touched by a marked stop
is scanned exactly once (`scanned_routes` deduplication), in encounter order. -/
def raptor_round_scan (sys : Sys) (marked_stops : List ℕ)
    (best_labels : List (ℕ × RaptorLabel)) (round_num : ℕ) :
    List (ℕ × RaptorLabel) × List ℕ :=
  let scan_list :=
    (marked_stops.flatMap (fun s => (alookup sys.stop_to_routes s).getD [])).foldl addNew []
  scan_list.foldl (scan_one_route sys marked_stops round_num) (best_labels, [])

/-- One full round `r ≥ 1`: route scanning, then transfer processing; the new
marked set is the union of the stops improved in either phase. -/
def raptor_round (sys : Sys) (marked_stops : List ℕ)
    (best_labels : List (ℕ × RaptorLabel)) (round_num : ℕ) :
    List (ℕ × RaptorLabel) × List ℕ :=
  let s := raptor_round_scan sys marked_stops best_labels round_num
  let t := process_transfers sys s.1 round_num
  (t.1, t.2.foldl addNew s.2)

/-- The round loop `for round_num in range(1, MAX_ROUNDS + 1)` with its early
exit when no stop is marked; returns the label map after each executed round. -/
def raptor_loop (sys : Sys) (round_num : ℕ) (fuel : ℕ)
    (best_labels : List (ℕ × RaptorLabel)) (marked_stops : List ℕ) :
    List (List (ℕ × RaptorLabel)) :=
  match fuel with
  | 0 => []
  | fuel' + 1 =>
    if marked_stops.isEmpty then []
    else
      let res := raptor_round sys marked_stops best_labels round_num
      res.1 :: raptor_loop sys (round_num + 1) fuel' res.1 res.2

/-- Per-round label history of one `_execute_raptor_algorithm` run: entry 0 is
the round-0 (access) state, entry `r` the state after round `r`. -/
def raptor_history (sys : Sys) (access_stops : List AccessStop) (dep_time : ℤ) :
    List (List (ℕ × RaptorLabel)) :=
  let init := raptor_init access_stops dep_time
  init.1 :: raptor_loop sys 1 MAX_ROUNDS init.1 init.2

/-- The label map when the round loop has finished. -/
def raptor_final_labels (sys : Sys) (access_stops : List AccessStop)
    (dep_time : ℤ) : List (ℕ × RaptorLabel) :=
  (raptor_history sys access_stops dep_time).getLastD []

/-- One raw result of `_execute_raptor_algorithm` for an egress stop. -/
structure RaptorResult where
  dest_stop_id : ℕ
  dest_stop_name : String
  arrival_time : ℤ
  total_time : ℤ
  transfers : ℕ
  cost : ℚ
  trip_id : Option ℕ
  route_id : Option ℕ
  egress_time : ℤ
  egress_mode : String
deriving DecidableEq

/-- `_execute_raptor_algorithm`: run the rounds, then collect the best label
of every labelled egress stop (an unlabelled egress stop contributes nothing). -/
def execute_raptor_algorithm (sys : Sys) (access_stops egress_stops : List AccessStop)
    (dep_time : ℤ) : List RaptorResult :=
  let labels := raptor_final_labels sys access_stops dep_time
  egress_stops.filterMap (fun e =>
    match alookup labels e.stop_id with
    | none => none
    | some label => some
      { dest_stop_id := e.stop_id, dest_stop_name := e.stop_name,
        arrival_time := label.arrival_time,
        total_time := (label.arrival_time - dep_time) + e.egress_time,
        transfers := label.transfers, cost := label.cost,
        trip_id := label.trip_id, route_id := label.route_id,
        egress_time := e.egress_time, egress_mode := e.mode })

-- ==========================================================================
-- Spatial / road query (`_find_nearest_node`, `_calculate_road_route`)
-- ==========================================================================

/-- Python list slicing `l[::step]`. -/
def sliceStep {α : Type} (l : List α) (step : ℕ) : List α :=
  (l.enum.filter (fun p => p.1 % step = 0)).map Prod.snd

/-- `_find_nearest_node`: `None` when the graph is absent or empty (`not
self.road_graph` is truthy for an empty `networkx` graph), otherwise the first
sampled node at minimal haversine distance. -/
def find_nearest_node (hav : Pt → Pt → ℚ) (g : Option RoadGraph) (p : Pt) :
    Option Pt :=
  match g with
  | none => none
  | some graph =>
    if graph.nodes.isEmpty then none
    else
      let nodes := graph.nodes
      let sample_size := min 1000 nodes.length
      let sample_nodes :=
        if nodes.length > sample_size then sliceStep nodes (nodes.length / sample_size)
        else nodes
      (sample_nodes.foldl (fun best node =>
        match best with
        | none => some (node, hav p node)
        | some prev =>
          if hav p node < prev.2 then some (node, hav p node) else best) none).map Prod.fst

/-- Speed constant chosen by the `mode == 'walk'` test. -/
def speed_for (mode : String) : ℚ := if mode = "walk" then WALK_SPEED else BIKE_SPEED

/-- The straight-line fallback of `_calculate_road_route`: haversine distance
inflated by the 1.3 detour factor, converted to minutes by the profile speed,
with the two-point coordinate path. -/
def road_fallback (hav : Pt → Pt → ℚ) (s e : Pt) (mode : String) :
    ℚ × ℚ × List Pt :=
  let road_distance := hav s e * (13/10)
  (road_distance / speed_for mode * 60, road_distance, [s, e])

/-- Sum of the `distance` attributes along consecutive path edges
(`get_edge_data`; a missing attribute contributes nothing). -/
def path_distance (graph : RoadGraph) : List Pt → ℚ
  | [] => 0
  | [_] => 0
  | a :: b :: rest =>
    (match graph.edge_distance a b with | some d => d | none => 0) +
      path_distance graph (b :: rest)

/-- `_calculate_road_route`: snap both endpoints, run the profile-weighted
shortest path; on an absent graph, a failed snap, or a `NetworkXNoPath`/
`NodeNotFound` exception, return the straight-line fallback. -/
def calculate_road_route (hav : Pt → Pt → ℚ) (g : Option RoadGraph)
    (s e : Pt) (mode : String) : ℚ × ℚ × List Pt :=
  match g with
  | none => road_fallback hav s e mode
  | some graph =>
    match find_nearest_node hav g s, find_nearest_node hav g e with
    | some start_node, some end_node =>
      (match graph.shortest_path start_node end_node mode with
       | some (time_minutes, path) => (time_minutes, path_distance graph path, path)
       | none => road_fallback hav s e mode)
    | _, _ => road_fallback hav s e mode

-- ==========================================================================
-- Journeys and segments
-- ==========================================================================

/-- One `segments` entry of a Journey (presentation-only fields such as
`route_info`, colours and per-segment coordinates are omitted). -/
structure Segment where
  mode : String
  from_ : String
  to_ : String
  duration : ℤ
  distance_km : ℚ := 0
  cost : ℚ := 0
deriving DecidableEq

/-- `Journey`. -/
structure Journey where
  total_time : ℤ
  total_distance : ℚ
  total_cost : ℚ
  total_transfers : ℤ
  departure_time : ℤ
  arrival_time : ℤ
  segments : List Segment
  route_coordinates : List Pt := []
  pareto_rank : ℚ := 1
  journey_type : String := "mixed"
deriving DecidableEq

/-- Caller preferences (`user_preferences` with its default values; the
`prefer_subway` / `avoid_bus` keys are never read by the code). -/
structure Preferences where
  time_weight : ℚ := 1/2
  cost_weight : ℚ := 1/5
  transfer_weight : ℚ := 3/10
  max_walk_time : ℚ := 15
  max_bike_time : ℚ := 20
deriving DecidableEq

/-- Python `round(q, 1)` (half-to-even on floats, modelled half-up on `ℚ`;
no verified claim depends on the rounding direction). -/
def pyRound1 (q : ℚ) : ℚ := ((Int.fdiv (q * 10 + 1/2).num ((q * 10 + 1/2).den : ℤ) : ℚ)) / 10

/-- `_find_nearby_stops_from_point`: stops within the haversine radius,
sorted by distance. -/
def find_nearby_stops_from_point (hav : Pt → Pt → ℚ) (sys : Sys) (p : Pt)
    (max_distance : ℚ) : List (ℕ × ℚ) :=
  pySorted (fun x => x.2)
    (sys.stops.filterMap (fun sp =>
      let d := hav p (sp.2.stop_lat, sp.2.stop_lon)
      if d ≤ max_distance then some (sp.1, d) else none))

/-- `_find_nearby_bike_stations`. -/
def find_nearby_bike_stations (hav : Pt → Pt → ℚ) (sys : Sys) (p : Pt)
    (max_distance : ℚ) : List (ℕ × ℚ) :=
  pySorted (fun x => x.2)
    (sys.bike_stations.filterMap (fun sp =>
      let d := hav p (sp.2.lat, sp.2.lon)
      if d ≤ max_distance then some (sp.1, d) else none))

/-- `_calculate_bike_cost`: base fare for 30 minutes plus 1000 per started
30-minute overage period. -/
def calculate_bike_cost (bike_time_minutes : ℚ) : ℚ :=
  if bike_time_minutes ≤ 30 then BIKE_BASE_FARE
  else BIKE_BASE_FARE + (pyCeil ((bike_time_minutes - 30) / 30) : ℚ) * 1000

/-- `_clean_station_name` (the cp949 re-decoding repair is byte-level and not
modelled; the empty check and the 30-character truncation are). -/
def clean_station_name (name : String) : String :=
  if name = "" then "따릉이 대여소"
  else if name.length > 30 then name.take 30 ++ "..." else name

-- ==========================================================================
-- Mode candidate generators
-- ==========================================================================

/-- `_find_walk_only_routes`: a single walk journey when the straight-line
distance is within 2 km and the road-route duration within `MAX_WALK_TIME`. -/
def find_walk_only_routes (hav : Pt → Pt → ℚ) (sys : Sys) (origin dest : Pt)
    (dep_time : ℤ) : List Journey :=
  let distance := hav origin dest
  if distance ≤ 2 then
    let r := calculate_road_route hav sys.road_graph origin dest "walk"
    let walk_time := r.1
    let walk_distance := r.2.1
    let coordinates := r.2.2
    if walk_time ≤ MAX_WALK_TIME then
      [{ total_time := pyInt walk_time, total_distance := walk_distance,
         total_cost := 0, total_transfers := 0, departure_time := dep_time,
         arrival_time := dep_time + pyInt walk_time, journey_type := "walk",
         route_coordinates := coordinates,
         segments := [{ mode := "walk", from_ := "출발지", to_ := "목적지",
                        duration := pyInt walk_time, distance_km := walk_distance,
                        cost := 0 }] }]
    else []
  else []

/-- `_find_bike_only_routes`: up to 3×3 origin/destination station pairs;
walk + rental + ride + return + walk, minimum leg durations enforced after the
raw total is formed, 45-minute ceiling. -/
def find_bike_only_routes (hav : Pt → Pt → ℚ) (sys : Sys) (origin dest : Pt)
    (dep_time : ℤ) : List Journey :=
  let origin_stations := find_nearby_bike_stations hav sys origin (1/2)
  let dest_stations := find_nearby_bike_stations hav sys dest (1/2)
  if origin_stations.isEmpty ∨ dest_stations.isEmpty then []
  else
    (origin_stations.take 3).flatMap (fun op =>
      match alookup sys.bike_stations op.1 with
      | none => []
      | some start_station =>
        (dest_stations.take 3).filterMap (fun ep =>
          if op.1 = ep.1 then none
          else match alookup sys.bike_stations ep.1 with
          | none => none
          | some end_station =>
            let r1 := calculate_road_route hav sys.road_graph origin
              (start_station.lat, start_station.lon) "walk"
            let r2 := calculate_road_route hav sys.road_graph
              (start_station.lat, start_station.lon) (end_station.lat, end_station.lon) "bike"
            let r3 := calculate_road_route hav sys.road_graph
              (end_station.lat, end_station.lon) dest "walk"
            let total_time0 := r1.1 + (BIKE_RENTAL_TIME : ℚ) + r2.1 +
              (BIKE_RENTAL_TIME : ℚ) + r3.1
            let walk_to_start_time := pyMaxQ 2 r1.1
            let bike_time := pyMaxQ 5 r2.1
            let walk_to_dest_time := pyMaxQ 2 r3.1
            let total_time := pyMaxQ 10 total_time0
            if total_time ≤ 45 then
              let bike_cost := calculate_bike_cost bike_time
              let total_distance := pyMaxQ (1/2) (r1.2.1 + r2.2.1 + r3.2.1)
              let start_name := clean_station_name start_station.name
              let end_name := clean_station_name end_station.name
              some { total_time := pyInt total_time, total_distance := total_distance,
                     total_cost := bike_cost, total_transfers := 0,
                     departure_time := dep_time,
                     arrival_time := dep_time + pyInt total_time,
                     journey_type := "bike",
                     route_coordinates := r1.2.2 ++ r2.2.2 ++ r3.2.2,
                     segments :=
                       [{ mode := "walk", from_ := "출발지", to_ := start_name,
                          duration := pyInt walk_to_start_time, distance_km := r1.2.1,
                          cost := 0 },
                        { mode := "bike_rental", from_ := start_name, to_ := start_name,
                          duration := BIKE_RENTAL_TIME, cost := 0 },
                        { mode := "bike", from_ := start_name, to_ := end_name,
                          duration := pyInt bike_time, distance_km := r2.2.1,
                          cost := bike_cost },
                        { mode := "bike_return", from_ := end_name, to_ := end_name,
                          duration := BIKE_RENTAL_TIME, cost := 0 },
                        { mode := "walk", from_ := end_name, to_ := "목적지",
                          duration := pyInt walk_to_dest_time, distance_km := r3.2.1,
                          cost := 0 }] }
            else none))

/-- `_find_access_stops`: walk access within the preference walk radius plus
(optionally) bike access via up to 3 stations × 2 nearby stops, sorted by
access time. -/
def find_access_stops (hav : Pt → Pt → ℚ) (sys : Sys) (p : Pt)
    (include_bike : Bool) (prefs : Preferences) : List AccessStop :=
  let nearby_stops := find_nearby_stops_from_point hav sys p
    (prefs.max_walk_time / 60 * WALK_SPEED)
  let walk_access := nearby_stops.filterMap (fun sp =>
    match alookup sys.stops sp.1 with
    | none => none
    | some stop =>
      let walk_time := sp.2 / WALK_SPEED * 60
      if walk_time ≤ prefs.max_walk_time then
        some { stop_id := sp.1, stop_name := stop.stop_name,
               access_time := pyInt walk_time, egress_time := pyInt walk_time,
               mode := "walk", distance := sp.2 }
      else none)
  let bike_access :=
    if include_bike then
      ((find_nearby_bike_stations hav sys p (1/2)).take 3).flatMap (fun bp =>
        match alookup sys.bike_stations bp.1 with
        | none => []
        | some station =>
          ((find_nearby_stops_from_point hav sys (station.lat, station.lon) (3/10)).take 2).filterMap
            (fun sp =>
              match alookup sys.stops sp.1 with
              | none => none
              | some stop =>
                let walk_to_station := bp.2 / WALK_SPEED * 60
                let bike_to_stop := sp.2 / BIKE_SPEED * 60
                let total_time := walk_to_station + (BIKE_RENTAL_TIME : ℚ) +
                  bike_to_stop + (BIKE_RENTAL_TIME : ℚ)
                if total_time ≤ prefs.max_bike_time then
                  some { stop_id := sp.1, stop_name := stop.stop_name,
                         access_time := pyInt total_time, egress_time := pyInt total_time,
                         mode := "bike", distance := bp.2 + sp.2 }
                else none))
    else []
  pySorted (fun a => (a.access_time : ℚ)) (walk_access ++ bike_access)

/-- `_reconstruct_journey_from_raptor`: result → transit Journey; `None` when
the result has no boarding trip/route or the route is unknown. -/
def reconstruct_journey_from_raptor (hav : Pt → Pt → ℚ) (sys : Sys)
    (raptor_result : RaptorResult) (origin dest : Pt) (dep_time : ℤ) :
    Option Journey :=
  match raptor_result.trip_id, raptor_result.route_id with
  | some _, some route_id =>
    match alookup sys.routes route_id with
    | none => none
    | some _route =>
      let access_time := pyMaxZ 3 (raptor_result.total_time - raptor_result.arrival_time + dep_time)
      let egress_time := raptor_result.egress_time
      let total_time := raptor_result.total_time
      let total_cost := raptor_result.cost
      let transfers := raptor_result.transfers
      let estimated_distance := hav origin dest * (12/10)
      let transit_time := pyMaxZ 5 (raptor_result.arrival_time - dep_time - access_time)
      some { total_time := pyMaxZ 10 total_time,
             total_distance := pyRound1 estimated_distance,
             total_cost := total_cost, total_transfers := (transfers : ℤ),
             departure_time := dep_time,
             arrival_time := dep_time + pyMaxZ 10 total_time,
             journey_type := "transit",
             route_coordinates := [origin, dest],
             segments :=
               [{ mode := "walk", from_ := "출발지", to_ := "탑승역",
                  duration := pyMaxZ 3 access_time,
                  distance_km := pyRound1 (estimated_distance * (1/10)), cost := 0 },
                { mode := "transit", from_ := "탑승역",
                  to_ := raptor_result.dest_stop_name, duration := transit_time,
                  distance_km := pyRound1 (estimated_distance * (8/10)),
                  cost := total_cost },
                { mode := "walk", from_ := raptor_result.dest_stop_name,
                  to_ := "목적지", duration := pyMaxZ 2 egress_time,
                  distance_km := pyRound1 (estimated_distance * (1/10)), cost := 0 }] }
  | _, _ => none

/-- `_find_transit_routes`: access/egress resolution, the RAPTOR run, and
journey reconstruction. -/
def find_transit_routes (hav : Pt → Pt → ℚ) (sys : Sys) (origin dest : Pt)
    (dep_time : ℤ) (include_bike : Bool) (prefs : Preferences) : List Journey :=
  let access_stops := find_access_stops hav sys origin include_bike prefs
  let egress_stops := find_access_stops hav sys dest include_bike prefs
  if access_stops.isEmpty ∨ egress_stops.isEmpty then []
  else
    (execute_raptor_algorithm sys access_stops egress_stops dep_time).filterMap
      (fun r => reconstruct_journey_from_raptor hav sys r origin dest dep_time)

/-- One entry of the `_find_direct_routes` result list. -/
structure DirectRoute where
  route_id : ℕ
  transfers : ℤ
  cost : ℚ
  arrival_time : ℤ
  distance : ℚ
deriving DecidableEq

/-- `_find_direct_routes`: routes common to both stops on which the boarding
stop's pattern index precedes the alighting stop's; the in-vehicle estimate is
2 minutes per pattern position, but `arrival_time` is anchored at the current
wall-clock minute `now` (`int(time.time() / 60)`), not at the query time. -/
def find_direct_routes (sys : Sys) (now : ℤ) (origin_stop_id dest_stop_id : ℕ) :
    List DirectRoute :=
  let origin_routes := ((alookup sys.stop_to_routes origin_stop_id).getD []).eraseDups
  let dest_routes := (alookup sys.stop_to_routes dest_stop_id).getD []
  let common_routes := origin_routes.filter (fun r => r ∈ dest_routes)
  common_routes.filterMap (fun rid =>
    match alookup sys.routes rid with
    | none => none
    | some route =>
      match route.stop_pattern.findIdx? (fun s => s = origin_stop_id),
            route.stop_pattern.findIdx? (fun s => s = dest_stop_id) with
      | some origin_idx, some dest_idx =>
        if origin_idx < dest_idx then
          let station_count := dest_idx - origin_idx
          some { route_id := rid, transfers := 0, cost := route.base_fare,
                 arrival_time := now + (station_count : ℤ) * 2,
                 distance := (station_count : ℚ) * (4/5) }
        else none
      | _, _ => none)

/-- One entry of the `_find_simple_transit_route` result list. -/
structure TransitOption where
  dest_stop_id : ℕ
  dest_stop_name : String
  duration : ℤ
  egress_time : ℚ
  transfers : ℤ
  cost : ℚ
  distance : ℚ
deriving DecidableEq

/-- `_find_simple_transit_route`: up to 5 destination-side stops within 800 m,
direct routes filtered by `arrival_time ≥ departure_time`, reported with
`duration = arrival_time - departure_time`, best 3 by duration. -/
def find_simple_transit_route (hav : Pt → Pt → ℚ) (sys : Sys) (now : ℤ)
    (origin_stop_id : ℕ) (dest : Pt) (departure_time : ℤ) : List TransitOption :=
  if (alookup sys.stops origin_stop_id).isNone then []
  else
    let dest_stops := find_nearby_stops_from_point hav sys dest (4/5)
    let results := (dest_stops.take 5).flatMap (fun dp =>
      match alookup sys.stops dp.1 with
      | none => []
      | some dest_stop =>
        let egress_time := dp.2 / WALK_SPEED * 60
        (find_direct_routes sys now origin_stop_id dp.1).filterMap (fun ri =>
          if ri.arrival_time ≥ departure_time then
            some { dest_stop_id := dp.1, dest_stop_name := dest_stop.stop_name,
                   duration := ri.arrival_time - departure_time,
                   egress_time := egress_time, transfers := ri.transfers,
                   cost := ri.cost, distance := ri.distance }
          else none))
    (pySorted (fun r => (r.duration : ℚ)) results).take 3

/-- `_find_mixed_routes`: up to 5 origin bike stations × 3 nearby stops; walk
to the station, ride to the stop, then the simplified direct-route search
toward the destination; 60-minute ceiling. -/
def find_mixed_routes (hav : Pt → Pt → ℚ) (sys : Sys) (now : ℤ)
    (origin dest : Pt) (dep_time : ℤ) : List Journey :=
  ((find_nearby_bike_stations hav sys origin (4/5)).take 5).flatMap (fun bp =>
    match alookup sys.bike_stations bp.1 with
    | none => []
    | some station =>
      ((find_nearby_stops_from_point hav sys (station.lat, station.lon) (3/10)).take 3).flatMap
        (fun sp =>
          match alookup sys.stops sp.1 with
          | none => []
          | some stop =>
            let r1 := calculate_road_route hav sys.road_graph origin
              (station.lat, station.lon) "walk"
            let r2 := calculate_road_route hav sys.road_graph
              (station.lat, station.lon) (stop.stop_lat, stop.stop_lon) "bike"
            let walk1_time := r1.1
            let bike_time := r2.1
            let transit_options := find_simple_transit_route hav sys now sp.1 dest
              (dep_time + pyInt (walk1_time + (BIKE_RENTAL_TIME : ℚ) + bike_time +
                (BIKE_RENTAL_TIME : ℚ)))
            transit_options.filterMap (fun tr =>
              let total_time := walk1_time + (BIKE_RENTAL_TIME : ℚ) + bike_time +
                (BIKE_RENTAL_TIME : ℚ) + (tr.duration : ℚ) + tr.egress_time
              if total_time ≤ 60 then
                let bike_cost := calculate_bike_cost bike_time
                let transit_cost := tr.cost
                some { total_time := pyInt total_time,
                       total_distance := r1.2.1 + r2.2.1 + tr.distance,
                       total_cost := bike_cost + transit_cost,
                       total_transfers := 1 + tr.transfers,
                       departure_time := dep_time,
                       arrival_time := dep_time + pyInt total_time,
                       journey_type := "mixed",
                       segments :=
                         [{ mode := "walk", from_ := "출발지", to_ := station.name,
                            duration := pyInt walk1_time, distance_km := r1.2.1,
                            cost := 0 },
                          { mode := "bike", from_ := station.name, to_ := stop.stop_name,
                            duration := pyInt bike_time + 2 * BIKE_RENTAL_TIME,
                            distance_km := r2.2.1, cost := bike_cost },
                          { mode := "transit", from_ := stop.stop_name,
                            to_ := tr.dest_stop_name, duration := tr.duration,
                            cost := transit_cost },
                          { mode := "walk", from_ := tr.dest_stop_name, to_ := "목적지",
                            duration := pyInt tr.egress_time, cost := 0 }] }
              else none)))

-- ==========================================================================
-- Journey selector (`_pareto_optimize`, `_diversify_routes`)
-- ==========================================================================

/-- Python `min(l, key=key)`: the first element with minimal key. -/
def first_min_by (key : Journey → ℚ) : List Journey → Option Journey
  | [] => none
  | j :: rest => some (rest.foldl (fun acc x => if key x < key acc then x else acc) j)

/-- `_are_journeys_similar`: near-duplicate test. -/
def are_journeys_similar (j1 j2 : Journey) : Bool :=
  decide ((j1.total_time - j2.total_time).natAbs ≤ 5 ∧
    pyAbs (j1.total_cost - j2.total_cost) ≤ 200 ∧
    (j1.total_transfers - j2.total_transfers).natAbs ≤ 1 ∧
    j1.journey_type = j2.journey_type)

/-- `_calculate_multi_criteria_score`: weighted sum of the clamped
time / cost / transfer ratios (lower is better). -/
def calculate_multi_criteria_score (j : Journey) (prefs : Preferences) : ℚ :=
  pyMinQ ((j.total_time : ℚ) / 60) 1 * prefs.time_weight +
  pyMinQ (j.total_cost / 3000) 1 * prefs.cost_weight +
  pyMinQ ((j.total_transfers : ℚ) / 3) 1 * prefs.transfer_weight

/-- Per-category selection step of `_pareto_optimize`: minimum-time journey,
then minimum-cost and minimum-transfer journeys when distinct by value. -/
def pareto_group_pick (g : List Journey) : List Journey :=
  match first_min_by (fun j => (j.total_time : ℚ)) g with
  | none => []
  | some best_time =>
    let best_cost := (first_min_by (fun j => j.total_cost) g).getD best_time
    let best_transfer := (first_min_by (fun j => (j.total_transfers : ℚ)) g).getD best_time
    [best_time] ++ (if best_cost ≠ best_time then [best_cost] else []) ++
      (if best_transfer ≠ best_time ∧ best_transfer ≠ best_cost then [best_transfer]
       else [])

/-- `_pareto_optimize`: group by the four journey categories, pick the three
per-category bests, drop near-duplicates, score, and sort ascending by score. -/
def pareto_optimize (journeys : List Journey) (prefs : Preferences) : List Journey :=
  if journeys.isEmpty then []
  else
    let pareto_optimal := ["walk", "bike", "transit", "mixed"].flatMap (fun ty =>
      pareto_group_pick (journeys.filter (fun j => j.journey_type = ty)))
    let unique_journeys := pareto_optimal.foldl (fun acc j =>
      if acc.any (fun e => are_journeys_similar j e) then acc else acc ++ [j]) []
    let scored := unique_journeys.map (fun j =>
      { j with pareto_rank := calculate_multi_criteria_score j prefs })
    pySorted (fun j => j.pareto_rank) scored

/-- The `type_best` dict of `_diversify_routes`: per category, the journey with
the strictly lowest `pareto_rank`, in first-encounter category order. -/
def type_best_fold (journeys : List Journey) : List (String × Journey) :=
  journeys.foldl (fun d j =>
    match alookup d j.journey_type with
    | none => d ++ [(j.journey_type, j)]
    | some cur => if j.pareto_rank < cur.pareto_rank then aset d j.journey_type j
                  else d) []

/-- Python slicing `l[:k]` including its negative-index semantics
(`l[:-n]` drops the last `n` elements). -/
def pySlice {α : Type} (l : List α) (k : ℤ) : List α :=
  if 0 ≤ k then l.take k.toNat else l.take (l.length - (-k).toNat)

/-- `_diversify_routes`: keep every per-category best, fill the remaining
`max_routes - |bests|` slots by list order (Python slice semantics), sort by
score. -/
def diversify_routes (journeys : List Journey) (max_routes : ℕ) : List Journey :=
  if journeys.length ≤ max_routes then journeys
  else
    let diversified := (type_best_fold journeys).map Prod.snd
    let remaining_slots : ℤ := (max_routes : ℤ) - diversified.length
    let remaining_journeys := journeys.filter (fun j => j ∉ diversified)
    pySorted (fun j => j.pareto_rank) (diversified ++ pySlice remaining_journeys remaining_slots)

-- ==========================================================================
-- Query entry point (`find_routes`)
-- ==========================================================================

/-- Python `int(s)` on a plain digit string (the shape `_parse_time_to_minutes`
feeds it). -/
def pyParseNat (s : String) : Option ℕ :=
  if s.toList ≠ [] ∧ s.toList.all (fun c => c.isDigit) then
    some (s.toList.foldl (fun n c => n * 10 + (c.toNat - 48)) 0)
  else none

/-- `_parse_time_to_minutes`: "HH:MM" → minutes, defaulting to 08:00 when the
string does not parse (`except` branch). -/
def parse_time_to_minutes (time_str : String) : ℤ :=
  match time_str.splitOn ":" with
  | [h, m] =>
    match pyParseNat h, pyParseNat m with
    | some hh, some mm => (hh : ℤ) * 60 + mm
    | _, _ => 8 * 60
  | _ => 8 * 60

/-- The journey list computed by `find_routes`: the four generators, Pareto
optimization, then diversification. -/
def find_routes_core (hav : Pt → Pt → ℚ) (sys : Sys) (now : ℤ)
    (origin dest : Pt) (departure_time : String) (max_routes : ℕ)
    (include_bike : Bool) (prefs : Preferences) : List Journey :=
  let dep_time_minutes := parse_time_to_minutes departure_time
  let walk_journeys := find_walk_only_routes hav sys origin dest dep_time_minutes
  let bike_journeys :=
    if include_bike then find_bike_only_routes hav sys origin dest dep_time_minutes
    else []
  let transit_journeys :=
    find_transit_routes hav sys origin dest dep_time_minutes include_bike prefs
  let mixed_journeys :=
    if include_bike then find_mixed_routes hav sys now origin dest dep_time_minutes
    else []
  let all_journeys := walk_journeys ++ bike_journeys ++ transit_journeys ++ mixed_journeys
  diversify_routes (pareto_optimize all_journeys prefs) max_routes

/-- `find_routes`: the public query entry point.  Every exception on the query
path is caught where it is raised (road-route fallback, name cleaning, time
parsing), so the body is a total computation wrapped in `Except.ok`; no branch
produces an `Except.error`. -/
def find_routes (hav : Pt → Pt → ℚ) (sys : Sys) (now : ℤ) (origin dest : Pt)
    (departure_time : String) (max_routes : ℕ) (include_bike : Bool)
    (prefs : Preferences) : Except String (List Journey) :=
  Except.ok (find_routes_core hav sys now origin dest departure_time max_routes
    include_bike prefs)

-- ==========================================================================
-- Transfer construction (`_build_transfers`, part1_data_loader.py)
-- ==========================================================================

/-- `_build_transfers`: for every unordered pair of stops (`i < j` traversal)
within 300 m, append both directed edges with the same duration
`min(max(int(d·1000/80), 2), 8)`.  The `defaultdict(list)` of edge lists is
flattened to a list of directed `(from, to, minutes)` triples. -/
def build_transfers (dist : Pt → Pt → ℚ) : List (ℕ × ℚ × ℚ) → List (ℕ × ℕ × ℤ)
  | [] => []
  | s1 :: rest =>
    ((rest.filterMap (fun s2 =>
      let d := dist (s1.2.1, s1.2.2) (s2.2.1, s2.2.2)
      if d ≤ 3/10 then
        some (s1.1, s2.1, pyMinZ (pyMaxZ (pyInt (d * 1000 / 80)) 2) 8)
      else none)).flatMap (fun t => [(t.1, t.2.1, t.2.2), (t.2.1, t.1, t.2.2)])) ++
    build_transfers dist rest

-- ==========================================================================
-- Concrete instances used to settle the claims
-- ==========================================================================

/-- A constant abstract haversine: every pair of points 0 km apart. -/
def havZero : Pt → Pt → ℚ := fun _ _ => 0

/-- A constant abstract haversine: every pair of points 3 km apart. -/
def havFar : Pt → Pt → ℚ := fun _ _ => 3

/-- A constant abstract haversine: every pair of points 0.5 km apart. -/
def havHalf : Pt → Pt → ℚ := fun _ _ => 1/2

/-- A constant abstract distance of 0.1 km for the transfer builder. -/
def distC9 : Pt → Pt → ℚ := fun _ _ => 1/10

/-- Network for the round-monotonicity counterexample: route 10 runs stop 1 →
stop 2 (arriving 20); access stop 4 (arrival 8) reaches stop 3 by a 7-minute
transfer during round 1, and stop 3 reaches stop 2 by an 8-minute transfer
during round 2, where the 5-minute-tolerance clause accepts arrival 23 with
0 transfers over the incumbent arrival 20 with 1 transfer. -/
def C2sys : Sys :=
  { routes := [(10, { stop_pattern := [1, 2], base_fare := 1370 })],
    trips := [(100, { stop_times := [⟨1, 9, 11⟩, ⟨2, 20, 20⟩] })],
    route_to_trips := [(10, [(100, 11)])],
    stop_to_routes := [(1, [10]), (2, [10])],
    transfers := [(4, [(3, 7)]), (3, [(4, 7), (2, 8)]), (2, [(3, 8)])] }

/-- Access stops for `C2sys`: stop 1 at minute 10, stop 4 at minute 8. -/
def C2access : List AccessStop :=
  [{ stop_id := 1, access_time := 10, egress_time := 10 },
   { stop_id := 4, access_time := 8, egress_time := 8 }]

/-- Network for the round-cap counterexample: a chain of five single-hop
routes; each round boards the next one, so the label at stop 5 carries
`transfers = 5` after round 5. -/
def C3sys : Sys :=
  { routes := [(1, { stop_pattern := [0, 1], base_fare := 1370 }),
               (2, { stop_pattern := [1, 2], base_fare := 1370 }),
               (3, { stop_pattern := [2, 3], base_fare := 1370 }),
               (4, { stop_pattern := [3, 4], base_fare := 1370 }),
               (5, { stop_pattern := [4, 5], base_fare := 1370 })],
    trips := [(1, { stop_times := [⟨0, 0, 1⟩, ⟨1, 3, 3⟩] }),
              (2, { stop_times := [⟨1, 3, 4⟩, ⟨2, 6, 6⟩] }),
              (3, { stop_times := [⟨2, 6, 7⟩, ⟨3, 9, 9⟩] }),
              (4, { stop_times := [⟨3, 9, 10⟩, ⟨4, 12, 12⟩] }),
              (5, { stop_times := [⟨4, 12, 13⟩, ⟨5, 15, 15⟩] })],
    route_to_trips := [(1, [(1, 1)]), (2, [(2, 4)]), (3, [(3, 7)]),
                       (4, [(4, 10)]), (5, [(5, 13)])],
    stop_to_routes := [(0, [1]), (1, [1, 2]), (2, [2, 3]), (3, [3, 4]),
                       (4, [4, 5]), (5, [5])] }

/-- Single access stop for `C3sys`. -/
def C3access : List AccessStop := [{ stop_id := 0, access_time := 0, egress_time := 0 }]

/-- Network for the transfer-phase counterexample: no routes at all, one
symmetric transfer edge between stops 1 and 2. -/
def C4sys : Sys := { transfers := [(1, [(2, 3)]), (2, [(1, 3)])] }

/-- Single access stop for `C4sys`. -/
def C4access : List AccessStop := [{ stop_id := 1, access_time := 10, egress_time := 10 }]

/-- Network for the direct-route timing claim: route 10's pattern places stop 1
at index 0 and stop 2 at index 3. -/
def sysC7 : Sys :=
  { stops := [(1, { stop_name := "S1", stop_lat := 0, stop_lon := 0 }),
              (2, { stop_name := "S2", stop_lat := 0, stop_lon := 0 })],
    routes := [(10, { stop_pattern := [1, 7, 8, 2], base_fare := 1370 })],
    stop_to_routes := [(1, [10]), (2, [10])] }

/-- Diversification fixture: the better walk journey. -/
def walkJ1 : Journey :=
  { total_time := 10, total_distance := 1, total_cost := 0, total_transfers := 0,
    departure_time := 0, arrival_time := 10, segments := [], pareto_rank := 1,
    journey_type := "walk" }

/-- Diversification fixture: a bike journey. -/
def bikeJ1 : Journey :=
  { total_time := 20, total_distance := 2, total_cost := 1000, total_transfers := 0,
    departure_time := 0, arrival_time := 20, segments := [], pareto_rank := 2,
    journey_type := "bike" }

/-- Diversification fixture: the worse walk journey. -/
def walkJ2 : Journey :=
  { total_time := 30, total_distance := 3, total_cost := 0, total_transfers := 0,
    departure_time := 0, arrival_time := 30, segments := [], pareto_rank := 3,
    journey_type := "walk" }

/-- The query run used to witness the arrival-time invariant: empty index, a
0.5 km straight-line distance, departure 08:00. -/
def C10run : List Journey := find_routes_core havHalf {} 0 (0, 0) (1, 1) "08:00" 5 false {}

/-- The incumbent label of the dominance-regression witness. -/
def C2incumbent : RaptorLabel := { arrival_time := 20, transfers := 1, cost := 1370 }

/-- The final label of stop 5 in the `C3sys` run (five boardings). -/
def C3stop5label : RaptorLabel :=
  { arrival_time := 15, transfers := 5, cost := 5650, parent_stop := some 4,
    trip_id := some 5, route_id := some 5, access_mode := "transit",
    round_number := 5, boarding_time := 13 }

-- ==========================================================================
-- Helper lemmas on the embedded container operations
-- ==========================================================================

theorem alookup_nil {κ α : Type} [DecidableEq κ] (k : κ) :
    alookup ([] : List (κ × α)) k = none := rfl

theorem alookup_cons {κ α : Type} [DecidableEq κ] (p : κ × α) (rest : List (κ × α))
    (k : κ) : alookup (p :: rest) k = if p.1 = k then some p.2 else alookup rest k := by
  by_cases h : p.1 = k <;> simp [alookup, List.find?_cons, h]

theorem alookup_mem {κ α : Type} [DecidableEq κ] {m : List (κ × α)} {k : κ} {v : α}
    (h : alookup m k = some v) : (k, v) ∈ m := by
  induction m with
  | nil => simp [alookup_nil] at h
  | cons p rest ih =>
    rw [alookup_cons] at h
    by_cases hk : p.1 = k
    · rw [if_pos hk] at h
      obtain ⟨a, b⟩ := p
      simp only at hk
      subst hk
      obtain rfl : b = v := Option.some.inj h
      exact List.mem_cons_self _ _
    · rw [if_neg hk] at h
      exact List.mem_cons_of_mem _ (ih h)

theorem aset_cons_hit {κ α : Type} [DecidableEq κ] {p : κ × α} {rest : List (κ × α)}
    {k : κ} (v : α) (hp : p.1 = k) : aset (p :: rest) k v = (k, v) :: rest := by
  simp [aset, hp]

theorem aset_cons_miss {κ α : Type} [DecidableEq κ] {p : κ × α} {rest : List (κ × α)}
    {k : κ} (v : α) (hp : ¬ p.1 = k) : aset (p :: rest) k v = p :: aset rest k v := by
  simp [aset, hp]

theorem alookup_aset {κ α : Type} [DecidableEq κ] (m : List (κ × α)) (k : κ) (v : α)
    (k' : κ) : alookup (aset m k v) k' = if k' = k then some v else alookup m k' := by
  induction m with
  | nil =>
    by_cases h : k' = k
    · simp [aset, alookup_cons, h]
    · have h1 : ¬ k = k' := fun hh => h hh.symm
      simp [aset, alookup_cons, alookup_nil, h, h1]
  | cons p rest ih =>
    by_cases hp : p.1 = k
    · rw [aset_cons_hit v hp, alookup_cons, alookup_cons]
      by_cases h : k' = k
      · simp [h]
      · have h1 : ¬ k = k' := fun hh => h hh.symm
        have h2 : ¬ p.1 = k' := fun hh => h1 (hp.symm.trans hh)
        simp [h, h1, h2]
    · rw [aset_cons_miss v hp, alookup_cons, alookup_cons, ih]
      by_cases h : p.1 = k'
      · have h3 : ¬ k' = k := fun hh => hp (h.trans hh)
        simp [h, h3]
      · simp [h]

theorem mem_aset {κ α : Type} [DecidableEq κ] {m : List (κ × α)} {k : κ} {v : α}
    {p : κ × α} (h : p ∈ aset m k v) : p = (k, v) ∨ p ∈ m := by
  induction m with
  | nil => simpa [aset] using h
  | cons q rest ih =>
    by_cases hq : q.1 = k
    · rw [aset_cons_hit v hq] at h
      rcases List.mem_cons.mp h with h | h
      · exact Or.inl h
      · exact Or.inr (List.mem_cons_of_mem _ h)
    · rw [aset_cons_miss v hq] at h
      rcases List.mem_cons.mp h with h | h
      · exact Or.inr (by simp [h])
      · rcases ih h with h' | h'
        · exact Or.inl h'
        · exact Or.inr (List.mem_cons_of_mem _ h')

theorem mem_sortInsert {α : Type} (key : α → ℚ) (x a : α) (l : List α) :
    a ∈ sortInsert key x l ↔ a = x ∨ a ∈ l := by
  induction l with
  | nil => simp [sortInsert]
  | cons y ys ih =>
    by_cases h : key y ≤ key x
    · simp only [sortInsert, if_pos h, List.mem_cons, ih]
      tauto
    · simp [sortInsert, if_neg h]

theorem length_sortInsert {α : Type} (key : α → ℚ) (x : α) (l : List α) :
    (sortInsert key x l).length = l.length + 1 := by
  induction l with
  | nil => simp [sortInsert]
  | cons y ys ih =>
    by_cases h : key y ≤ key x
    · simp [sortInsert, if_pos h, ih]
    · simp [sortInsert, if_neg h]

theorem mem_pySorted {α : Type} (key : α → ℚ) (l : List α) (a : α) :
    a ∈ pySorted key l ↔ a ∈ l := by
  suffices h : ∀ acc, a ∈ l.foldl (fun acc x => sortInsert key x acc) acc ↔
      a ∈ acc ∨ a ∈ l by
    simpa [pySorted] using h []
  induction l with
  | nil => simp
  | cons y ys ih =>
    intro acc
    simp only [List.foldl_cons, ih, mem_sortInsert, List.mem_cons]
    tauto

theorem length_pySorted {α : Type} (key : α → ℚ) (l : List α) :
    (pySorted key l).length = l.length := by
  suffices h : ∀ acc, (l.foldl (fun acc x => sortInsert key x acc) acc).length =
      acc.length + l.length by
    simpa [pySorted] using h []
  induction l with
  | nil => simp
  | cons y ys ih =>
    intro acc
    simp only [List.foldl_cons, ih, length_sortInsert, List.length_cons]
    omega

theorem pySlice_length_le {α : Type} (l : List α) (k : ℤ) (hk : 0 ≤ k) :
    (pySlice l k).length ≤ k.toNat := by
  simp [pySlice, if_pos hk]

theorem pySlice_subset {α : Type} (l : List α) (k : ℤ) : pySlice l k ⊆ l := by
  by_cases hk : 0 ≤ k <;> simp [pySlice, hk, List.take_subset]

/-- C5: `_calculate_road_route` never raises and, whenever the road graph is
absent, an endpoint fails to snap, or the shortest-path call fails, returns
exactly the straight-line fallback: haversine distance times the 1.3 detour
factor, converted to minutes by the profile speed, with the two-point path
(always finite on `ℚ`). -/
theorem calculate_road_route_degraded (hav : Pt → Pt → ℚ) (g : Option RoadGraph)
    (s e : Pt) (mode : String)
    (hdeg : g = none ∨
      find_nearest_node hav g s = none ∨ find_nearest_node hav g e = none ∨
      (∀ graph sn en, g = some graph → find_nearest_node hav g s = some sn →
        find_nearest_node hav g e = some en → graph.shortest_path sn en mode = none)) :
    calculate_road_route hav g s e mode = road_fallback hav s e mode ∧
    road_fallback hav s e mode =
      (hav s e * (13/10) / speed_for mode * 60, hav s e * (13/10), [s, e]) := by
  refine ⟨?_, rfl⟩
  rcases hdeg with h | h | h | h
  · simp [calculate_road_route, h]
  · cases g with
    | none => rfl
    | some graph =>
      cases h2 : find_nearest_node hav (some graph) e <;>
        simp [calculate_road_route, h, h2]
  · cases g with
    | none => rfl
    | some graph =>
      cases h2 : find_nearest_node hav (some graph) s <;>
        simp [calculate_road_route, h, h2]
  · cases g with
    | none => rfl
    | some graph =>
      cases hs : find_nearest_node hav (some graph) s with
      | none => simp [calculate_road_route, hs]
      | some sn =>
        cases he : find_nearest_node hav (some graph) e with
        | none => simp [calculate_road_route, hs, he]
        | some en =>
          have hsp := h graph sn en rfl hs he
          simp [calculate_road_route, hs, he, hsp]

/-- Witness for C5 at a concrete degraded input: the road graph is absent. -/
theorem calculate_road_route_degraded_witness :
    calculate_road_route havZero none (0, 0) (1, 1) "walk" =
      road_fallback havZero (0, 0) (1, 1) "walk" ∧
    road_fallback havZero (0, 0) (1, 1) "walk" =
      (havZero (0, 0) (1, 1) * (13/10) / speed_for "walk" * 60,
       havZero (0, 0) (1, 1) * (13/10), [(0, 0), (1, 1)]) :=
  calculate_road_route_degraded havZero none (0, 0) (1, 1) "walk" (Or.inl rfl)


theorem transfer_time_bounds (x : ℤ) :
    2 ≤ pyMinZ (pyMaxZ x 2) 8 ∧ pyMinZ (pyMaxZ x 2) 8 ≤ 8 := by
  simp only [pyMinZ, pyMaxZ]
  split_ifs <;> omega

theorem mem_pairs_swap {l : List (ℕ × ℕ × ℤ)} {A B : ℕ} {t : ℤ}
    (h : (A, B, t) ∈ l.flatMap (fun tr => [(tr.1, tr.2.1, tr.2.2), (tr.2.1, tr.1, tr.2.2)])) :
    (B, A, t) ∈ l.flatMap (fun tr => [(tr.1, tr.2.1, tr.2.2), (tr.2.1, tr.1, tr.2.2)]) := by
  rw [List.mem_flatMap] at h ⊢
  obtain ⟨tr, htr, hm⟩ := h
  refine ⟨tr, htr, ?_⟩
  simp only [List.mem_cons, List.not_mem_nil, or_false, Prod.mk.injEq] at hm ⊢
  tauto

theorem build_transfers_swap (dist : Pt → Pt → ℚ) (stops : List (ℕ × ℚ × ℚ))
    {A B : ℕ} {t : ℤ} (h : (A, B, t) ∈ build_transfers dist stops) :
    (B, A, t) ∈ build_transfers dist stops := by
  induction stops with
  | nil => simp [build_transfers] at h
  | cons s1 rest ih =>
    simp only [build_transfers, List.mem_append] at h ⊢
    rcases h with h | h
    · exact Or.inl (mem_pairs_swap h)
    · exact Or.inr (ih h)

theorem build_transfers_bound (dist : Pt → Pt → ℚ) (stops : List (ℕ × ℚ × ℚ))
    {A B : ℕ} {t : ℤ} (h : (A, B, t) ∈ build_transfers dist stops) :
    2 ≤ t ∧ t ≤ 8 := by
  induction stops with
  | nil => simp [build_transfers] at h
  | cons s1 rest ih =>
    simp only [build_transfers, List.mem_append] at h
    rcases h with h | h
    · rw [List.mem_flatMap] at h
      obtain ⟨tr, htr, hm⟩ := h
      rw [List.mem_filterMap] at htr
      obtain ⟨s2, _, hif⟩ := htr
      by_cases hd : dist (s1.2.1, s1.2.2) (s2.2.1, s2.2.2) ≤ 3/10
      · rw [if_pos hd] at hif
        obtain rfl := Option.some.inj hif
        simp only [List.mem_cons, List.not_mem_nil, or_false, Prod.mk.injEq] at hm
        rcases hm with ⟨_, _, rfl⟩ | ⟨_, _, rfl⟩ <;>
          exact transfer_time_bounds _
      · rw [if_neg hd] at hif
        cases hif
    · exact ih h

/-- C9: transfer construction is symmetric with bounded durations: a directed
edge (A, B, t) is generated exactly when (B, A, t) is (the builder appends both
directions of each qualifying pair with the same duration), and every generated
duration satisfies 2 ≤ t ≤ 8. -/
theorem build_transfers_symmetric_bounded (dist : Pt → Pt → ℚ)
    (stops : List (ℕ × ℚ × ℚ)) (A B : ℕ) (t : ℤ) :
    ((A, B, t) ∈ build_transfers dist stops ↔ (B, A, t) ∈ build_transfers dist stops) ∧
    ((A, B, t) ∈ build_transfers dist stops → 2 ≤ t ∧ t ≤ 8) :=
  ⟨⟨fun h => build_transfers_swap dist stops h, fun h => build_transfers_swap dist stops h⟩,
   fun h => build_transfers_bound dist stops h⟩

/-- Witness for C9: two stops 0.1 km apart produce the mutual edges
(1, 2, 2) and (2, 1, 2), whose duration 2 lies in [2, 8]. -/
theorem build_transfers_symmetric_bounded_witness :
    ((1, 2, 2) ∈ build_transfers distC9 [(1, 0, 0), (2, 0, 0)] ↔
      (2, 1, 2) ∈ build_transfers distC9 [(1, 0, 0), (2, 0, 0)]) ∧
    ((1, 2, (2 : ℤ)) ∈ build_transfers distC9 [(1, 0, 0), (2, 0, 0)] ∧
      2 ≤ (2 : ℤ) ∧ (2 : ℤ) ≤ 8) :=
  ⟨(build_transfers_symmetric_bounded distC9 [(1, 0, 0), (2, 0, 0)] 1 2 2).1,
   by decide,
   (build_transfers_symmetric_bounded distC9 [(1, 0, 0), (2, 0, 0)] 1 2 2).2 (by decide)⟩

/-- C2 (counterexample): per-stop labels are NOT monotone across rounds.  In
the concrete `C2sys` run, stop 2's best label arrives at minute 20 after round
1 but at minute 23 after round 2 (rounds 1 < 2): the 5-minute-tolerance clause
replaced the round-1 label by a later-arriving, fewer-transfers label. -/
theorem raptor_rounds_not_monotone_cex :
    (alookup ((raptor_history C2sys C2access 0).getD 1 []) 2).map RaptorLabel.arrival_time
        = some 20 ∧
    (alookup ((raptor_history C2sys C2access 0).getD 2 []) 2).map RaptorLabel.arrival_time
        = some 23 ∧
    ¬ ((23 : ℤ) ≤ 20) := by
  refine ⟨by decide, by decide, by decide⟩

/-- C2 (amended): every accepted label replacement worsens the stored arrival
time by at most 5 minutes, and can worsen it at all only while strictly
decreasing the transfer count (the tolerance clause); monotonicity holds in
the remaining clauses. -/
theorem is_label_better_bounded_regression (new_arrival : ℤ) (new_transfers : ℕ)
    (new_cost : ℚ) (l : RaptorLabel)
    (h : is_label_better new_arrival new_transfers new_cost (some l) = true) :
    new_arrival ≤ l.arrival_time + 5 ∧
      (l.arrival_time < new_arrival → new_transfers < l.transfers) := by
  simp only [is_label_better] at h
  by_cases h1 : new_arrival < l.arrival_time
  · exact ⟨by omega, fun hc => absurd h1 (by omega)⟩
  · rw [if_neg h1] at h
    by_cases h2 : new_arrival = l.arrival_time ∧ new_transfers < l.transfers
    · exact ⟨by omega, fun hc => h2.2⟩
    · rw [if_neg h2] at h
      by_cases h3 : new_arrival = l.arrival_time ∧ new_transfers = l.transfers ∧
          new_cost < l.cost
      · exact ⟨by omega, fun hc => absurd h3.1 (by omega)⟩
      · rw [if_neg h3] at h
        by_cases h4 : new_arrival ≤ l.arrival_time + 5 ∧ new_transfers < l.transfers
        · exact ⟨h4.1, fun _ => h4.2⟩
        · rw [if_neg h4] at h
          cases h

/-- Witness for the amended C2 at the concrete replacement of the
counterexample: arrival 23 replaces arrival 20 with fewer transfers. -/
theorem is_label_better_bounded_regression_witness :
    (23 : ℤ) ≤ C2incumbent.arrival_time + 5 ∧
      (C2incumbent.arrival_time < 23 → 0 < C2incumbent.transfers) :=
  is_label_better_bounded_regression 23 0 0 C2incumbent (by decide)

/-- C3 (counterexample): on the five-route chain `C3sys`, the engine's final
label at stop 5 carries `transfers = 5 = MAX_ROUNDS`, exceeding the claimed
bound `MAX_ROUNDS - 1 = 4`: the engine counts every boarding (the first one
included) as a transfer and runs `MAX_ROUNDS` boarding rounds. -/
theorem raptor_round_cap_cex :
    (alookup (raptor_final_labels C3sys C3access 0) 5).map RaptorLabel.transfers
        = some 5 ∧
    ¬ (5 ≤ MAX_ROUNDS - 1) := by
  refine ⟨by decide, by decide⟩

/-- C4 (counterexample): the transfer phase does not restrict its origins to
stops improved by that round's route scan.  On `C4sys` (no routes at all),
round 1's route scan improves no stop, yet the transfer phase relaxes the
edge from access stop 1 and labels stop 2 with arrival 13. -/
theorem process_transfers_origin_cex :
    (raptor_round_scan C4sys [1] (raptor_init C4access 0).1 1).2 = [] ∧
    (alookup (raptor_round C4sys [1] (raptor_init C4access 0).1 1).1 2).map
        RaptorLabel.arrival_time = some 13 := by
  refine ⟨by decide, by decide⟩

/-- C7: the in-vehicle travel time reported by the simplified direct-route
search is not 2 minutes per pattern position.  With wall clock `now = 200`,
query departure 100, and boarding/alighting pattern indices 0 and 3 on route
10, the single reported option has duration 106 = now + 2·3 − 100, not
2·3 = 6. -/
theorem find_simple_transit_route_wall_clock_bug :
    (find_simple_transit_route havZero sysC7 200 1 (0, 0) 100).map TransitOption.duration
        = [106] ∧
    (106 : ℤ) ≠ 2 * 3 := by
  refine ⟨by decide, by decide⟩

/-- C8 (counterexample): with `max_routes = 1` and three candidates spanning
two categories, diversification returns 2 journeys, exceeding `max_routes`:
the per-category bests are kept unconditionally and Python's negative slice
drops the fill instead of truncating the bests. -/
theorem diversify_routes_exceeds_cap_cex :
    (diversify_routes [walkJ1, bikeJ1, walkJ2] 1).length = 2 ∧ ¬ (2 ≤ 1) := by
  refine ⟨by decide, by decide⟩

-- ==========================================================================
-- Transfer-phase characterization (C4 amended)
-- ==========================================================================

theorem relax_transfer_dom_mono (round_num : ℕ) (p : ℕ × RaptorLabel)
    (acc : List (ℕ × RaptorLabel) × List ℕ) (e : ℕ × ℤ) (d : ℕ)
    (h : (alookup acc.1 d).isSome = true) :
    (alookup (relax_transfer round_num p acc e).1 d).isSome = true := by
  simp only [relax_transfer]
  split
  · rw [alookup_aset]
    by_cases hd : d = e.1 <;> simp [hd, h]
  · exact h

theorem foldl_relax_dom_mono (round_num : ℕ) (p : ℕ × RaptorLabel)
    (es : List (ℕ × ℤ)) (acc : List (ℕ × RaptorLabel) × List ℕ) (d : ℕ)
    (h : (alookup acc.1 d).isSome = true) :
    (alookup (es.foldl (relax_transfer round_num p) acc).1 d).isSome = true := by
  induction es generalizing acc with
  | nil => exact h
  | cons e rest ih =>
    exact ih _ (relax_transfer_dom_mono round_num p acc e d h)

theorem foldl_origin_dom_mono (sys : Sys) (round_num : ℕ)
    (snap : List (ℕ × RaptorLabel)) (acc : List (ℕ × RaptorLabel) × List ℕ) (d : ℕ)
    (h : (alookup acc.1 d).isSome = true) :
    (alookup (snap.foldl (process_transfer_origin sys round_num) acc).1 d).isSome
      = true := by
  induction snap generalizing acc with
  | nil => exact h
  | cons p rest ih =>
    exact ih _ (foldl_relax_dom_mono round_num p _ acc d h)

theorem foldl_relax_hits (round_num : ℕ) (p : ℕ × RaptorLabel)
    (es : List (ℕ × ℤ)) (acc : List (ℕ × RaptorLabel) × List ℕ) (d : ℕ) (t : ℤ)
    (h : (d, t) ∈ es) :
    (alookup (es.foldl (relax_transfer round_num p) acc).1 d).isSome = true := by
  induction es generalizing acc with
  | nil => cases h
  | cons e rest ih =>
    rw [List.foldl_cons]
    rcases List.mem_cons.mp h with he | he
    · obtain ⟨e1, e2⟩ := e
      injection he with he1 he2
      subst he1
      subst he2
      apply foldl_relax_dom_mono
      simp only [relax_transfer]
      split
      · rw [alookup_aset]
        simp
      · rename_i hbet
        -- a rejected candidate means an incumbent existed
        cases hl : alookup acc.1 d with
        | none =>
          simp only [hl] at hbet
          exact absurd rfl hbet
        | some _ => simp [hl]
    · exact ih _ he

theorem process_transfers_hits (sys : Sys) (round_num : ℕ)
    (snap : List (ℕ × RaptorLabel)) (acc : List (ℕ × RaptorLabel) × List ℕ)
    (s : ℕ) (l : RaptorLabel) (d : ℕ) (t : ℤ)
    (hmem : (s, l) ∈ snap) (hedge : (d, t) ∈ (alookup sys.transfers s).getD []) :
    (alookup (snap.foldl (process_transfer_origin sys round_num) acc).1 d).isSome
      = true := by
  induction snap generalizing acc with
  | nil => cases hmem
  | cons p rest ih =>
    rw [List.foldl_cons]
    rcases List.mem_cons.mp hmem with hp | hp
    · apply foldl_origin_dom_mono
      rw [← hp]
      simp only [process_transfer_origin]
      exact foldl_relax_hits round_num (s, l) _ _ d t hedge
    · exact ih _ hp

theorem relax_transfer_new_key (round_num : ℕ) (p : ℕ × RaptorLabel)
    (acc : List (ℕ × RaptorLabel) × List ℕ) (e : ℕ × ℤ) (d : ℕ)
    (h : (alookup (relax_transfer round_num p acc e).1 d).isSome = true) :
    (alookup acc.1 d).isSome = true ∨ d = e.1 := by
  simp only [relax_transfer] at h
  split at h
  · rw [alookup_aset] at h
    by_cases hd : d = e.1
    · exact Or.inr hd
    · rw [if_neg hd] at h
      exact Or.inl h
  · exact Or.inl h

theorem foldl_relax_new_key (round_num : ℕ) (p : ℕ × RaptorLabel)
    (es : List (ℕ × ℤ)) (acc : List (ℕ × RaptorLabel) × List ℕ) (d : ℕ)
    (h : (alookup (es.foldl (relax_transfer round_num p) acc).1 d).isSome = true) :
    (alookup acc.1 d).isSome = true ∨ ∃ t, (d, t) ∈ es := by
  induction es generalizing acc with
  | nil => exact Or.inl h
  | cons e rest ih =>
    rcases ih _ h with h' | ⟨t, ht⟩
    · rcases relax_transfer_new_key round_num p acc e d h' with h'' | h''
      · exact Or.inl h''
      · exact Or.inr ⟨e.2, by simp [h'']⟩
    · exact Or.inr ⟨t, List.mem_cons_of_mem _ ht⟩

theorem foldl_origin_new_key (sys : Sys) (round_num : ℕ)
    (snap : List (ℕ × RaptorLabel)) (acc : List (ℕ × RaptorLabel) × List ℕ) (d : ℕ)
    (h : (alookup (snap.foldl (process_transfer_origin sys round_num) acc).1 d).isSome
      = true) :
    (alookup acc.1 d).isSome = true ∨
      ∃ p ∈ snap, ∃ t, (d, t) ∈ (alookup sys.transfers p.1).getD [] := by
  induction snap generalizing acc with
  | nil => exact Or.inl h
  | cons p rest ih =>
    rcases ih _ h with h' | ⟨q, hq, t, ht⟩
    · rcases foldl_relax_new_key round_num p _ acc d h' with h'' | ⟨t, ht⟩
      · exact Or.inl h''
      · exact Or.inr ⟨p, List.mem_cons_self _ _, t, ht⟩
    · exact Or.inr ⟨q, List.mem_cons_of_mem _ hq, t, ht⟩

/-- C4 (amended): the transfer phase relaxes edges from EVERY stop labelled in
the snapshot taken at the start of the phase, not only from stops improved by
that round's route scan — every edge of every labelled stop leaves its target
labelled — and, conversely, a stop labelled by the phase was either already
labelled or is one transfer hop from a stop labelled in the snapshot (the
snapshot limits cascading to one hop per round). -/
theorem process_transfers_origin_characterization (sys : Sys)
    (labels : List (ℕ × RaptorLabel)) (round_num : ℕ) :
    (∀ s l d t, alookup labels s = some l →
        (d, t) ∈ (alookup sys.transfers s).getD [] →
        (alookup (process_transfers sys labels round_num).1 d).isSome = true) ∧
    (∀ d, (alookup (process_transfers sys labels round_num).1 d).isSome = true →
        (alookup labels d).isSome = true ∨
        ∃ s l t, (s, l) ∈ labels ∧ (d, t) ∈ (alookup sys.transfers s).getD []) := by
  constructor
  · intro s l d t hs hedge
    exact process_transfers_hits sys round_num labels (labels, []) s l d t
      (alookup_mem hs) hedge
  · intro d h
    rcases foldl_origin_new_key sys round_num labels (labels, []) d h with h' | ⟨p, hp, t, ht⟩
    · exact Or.inl h'
    · exact Or.inr ⟨p.1, p.2, t, by simpa using hp, ht⟩

/-- Witness for the amended C4 on `C4sys`: access stop 1 is labelled and has
the edge (2, 3), so the phase labels stop 2; and stop 2's new label is one hop
from snapshot-labelled stop 1. -/
theorem process_transfers_origin_characterization_witness :
    (alookup (process_transfers C4sys (raptor_init C4access 0).1 1).1 2).isSome
      = true ∧
    ((alookup (raptor_init C4access 0).1 2).isSome = true ∨
      ∃ s l t, (s, l) ∈ (raptor_init C4access 0).1 ∧
        (2, t) ∈ (alookup C4sys.transfers s).getD []) :=
  ⟨(process_transfers_origin_characterization C4sys (raptor_init C4access 0).1 1).1
      1 { arrival_time := 10, transfers := 0, cost := 0 } 2 3 (by decide) (by decide),
   (process_transfers_origin_characterization C4sys (raptor_init C4access 0).1 1).2
      2 (by decide)⟩

-- ==========================================================================
-- Global transfer-count bound (C3 amended)
-- ==========================================================================

theorem pair_fst {A B : Type} (a : A) (b : B) : (a, b).1 = a := rfl

theorem labels_bound_mono {labels : List (ℕ × RaptorLabel)} {n n' : ℕ} (h : n ≤ n')
    (hb : ∀ p ∈ labels, p.2.transfers ≤ n) : ∀ p ∈ labels, p.2.transfers ≤ n' :=
  fun p hp => le_trans (hb p hp) h

theorem labels_bound_aset {labels : List (ℕ × RaptorLabel)} {n : ℕ} {s : ℕ}
    {v : RaptorLabel} (hb : ∀ p ∈ labels, p.2.transfers ≤ n) (hv : v.transfers ≤ n) :
    ∀ p ∈ aset labels s v, p.2.transfers ≤ n := by
  intro p hp
  rcases mem_aset hp with h | h
  · rw [h]
    exact hv
  · exact hb p h

theorem alookup_transfers_le {labels : List (ℕ × RaptorLabel)} {n : ℕ} {s : ℕ}
    {l : RaptorLabel} (hb : ∀ p ∈ labels, p.2.transfers ≤ n)
    (hl : alookup labels s = some l) : l.transfers ≤ n :=
  hb (s, l) (alookup_mem hl)

theorem scan_stop_time_bound {route : Route} {rid tid bstop : ℕ} {btime : ℤ}
    {blabel : RaptorLabel} {rn : ℕ} {acc : List (ℕ × RaptorLabel) × List ℕ}
    {st : StopTime} {n : ℕ}
    (hacc : ∀ p ∈ acc.1, p.2.transfers ≤ n + 1) (hb : blabel.transfers ≤ n) :
    ∀ p ∈ (scan_stop_time route rid tid bstop btime blabel rn acc st).1,
      p.2.transfers ≤ n + 1 := by
  intro p hp
  simp only [scan_stop_time] at hp
  split at hp
  · exact hacc p hp
  · generalize (if blabel.transfers > 0 then blabel.cost + route.base_fare - TRANSFER_DISCOUNT
      else blabel.cost + route.base_fare) = nc at hp
    split at hp
    · rw [pair_fst] at hp
      rcases mem_aset hp with h | h
      · subst h
        simp only
        omega
      · exact hacc p h
    · exact hacc p hp

theorem foldl_scan_stop_time_bound {route : Route} {rid tid bstop : ℕ} {btime : ℤ}
    {blabel : RaptorLabel} {rn : ℕ} {n : ℕ} (sts : List StopTime)
    (acc : List (ℕ × RaptorLabel) × List ℕ)
    (hacc : ∀ p ∈ acc.1, p.2.transfers ≤ n + 1) (hb : blabel.transfers ≤ n) :
    ∀ p ∈ (sts.foldl (scan_stop_time route rid tid bstop btime blabel rn) acc).1,
      p.2.transfers ≤ n + 1 := by
  induction sts generalizing acc with
  | nil => exact hacc
  | cons st rest ih =>
    rw [List.foldl_cons]
    exact ih _ (scan_stop_time_bound hacc hb)

theorem scan_route_unknown (sys : Sys) (route_id : ℕ) (marked : List ℕ)
    (labels : List (ℕ × RaptorLabel)) (rn : ℕ)
    (h : alookup sys.routes route_id = none) :
    scan_route sys route_id marked labels rn = (labels, []) := by
  simp [scan_route, h]

theorem scan_route_bound {sys : Sys} {route_id : ℕ} {marked : List ℕ}
    {labels : List (ℕ × RaptorLabel)} {rn n : ℕ}
    (hb : ∀ p ∈ labels, p.2.transfers ≤ n) :
    ∀ p ∈ (scan_route sys route_id marked labels rn).1, p.2.transfers ≤ n + 1 := by
  unfold scan_route
  split
  · exact labels_bound_mono (by omega) hb
  · split
    · exact labels_bound_mono (by omega) hb
    · split
      · exact labels_bound_mono (by omega) hb
      · rename_i boarding_label hbl
        split
        · exact labels_bound_mono (by omega) hb
        · exact foldl_scan_stop_time_bound _ _
            (labels_bound_mono (by omega) hb) (alookup_transfers_le hb hbl)

theorem foldl_scan_one_route_bound (sys : Sys) (marked : List ℕ) (rn : ℕ)
    (sl : List ℕ) (acc : List (ℕ × RaptorLabel) × List ℕ) (n : ℕ)
    (hacc : ∀ p ∈ acc.1, p.2.transfers ≤ n) :
    ∀ p ∈ (sl.foldl (scan_one_route sys marked rn) acc).1,
      p.2.transfers ≤
        n + (sl.filter (fun r => (alookup sys.routes r).isSome)).length := by
  induction sl generalizing acc n with
  | nil => simpa using hacc
  | cons r rest ih =>
    rw [List.foldl_cons]
    cases hr : alookup sys.routes r with
    | none =>
      have hstep : (scan_one_route sys marked rn acc r).1 = acc.1 := by
        simp [scan_one_route, scan_route_unknown sys r marked acc.1 rn hr]
      have := ih (scan_one_route sys marked rn acc r) n (hstep ▸ hacc)
      intro p hp
      have h2 := this p hp
      have hfeq : List.filter (fun r => (alookup sys.routes r).isSome) (r :: rest) =
          List.filter (fun r => (alookup sys.routes r).isSome) rest := by
        simp [List.filter_cons, hr]
      rw [hfeq]
      exact h2
    | some route =>
      have hstep : ∀ p ∈ (scan_one_route sys marked rn acc r).1,
          p.2.transfers ≤ n + 1 := by
        simp only [scan_one_route]
        exact scan_route_bound hacc
      have := ih (scan_one_route sys marked rn acc r) (n + 1) hstep
      intro p hp
      have h2 := this p hp
      have hfeq : List.filter (fun r => (alookup sys.routes r).isSome) (r :: rest) =
          r :: List.filter (fun r => (alookup sys.routes r).isSome) rest := by
        simp [List.filter_cons, hr]
      rw [hfeq, List.length_cons]
      omega

theorem addNew_nodup {α : Type} [DecidableEq α] {l : List α} (a : α) (h : l.Nodup) :
    (addNew l a).Nodup := by
  unfold addNew
  split
  · exact h
  · rename_i ha
    simp [List.nodup_append, h, ha]

theorem foldl_addNew_nodup {α : Type} [DecidableEq α] (l : List α) (init : List α)
    (h : init.Nodup) : (l.foldl addNew init).Nodup := by
  induction l generalizing init with
  | nil => exact h
  | cons a rest ih =>
    rw [List.foldl_cons]
    exact ih _ (addNew_nodup a h)

theorem countSome_le (sys : Sys) (sl : List ℕ) (hnd : sl.Nodup) :
    (sl.filter (fun r => (alookup sys.routes r).isSome)).length ≤ sys.routes.length := by
  have h1 : (sl.filter (fun r => (alookup sys.routes r).isSome)).Nodup :=
    hnd.filter _
  have h2 : ∀ r ∈ sl.filter (fun r => (alookup sys.routes r).isSome),
      r ∈ sys.routes.map Prod.fst := by
    intro r hr
    have hf := (List.mem_filter.mp hr).2
    cases hs : alookup sys.routes r with
    | none => simp [hs] at hf
    | some v => exact List.mem_map.mpr ⟨(r, v), alookup_mem hs, rfl⟩
  calc (sl.filter (fun r => (alookup sys.routes r).isSome)).length
      = (sl.filter (fun r => (alookup sys.routes r).isSome)).toFinset.card :=
        (List.toFinset_card_of_nodup h1).symm
    _ ≤ (sys.routes.map Prod.fst).toFinset.card := by
        apply Finset.card_le_card
        intro x hx
        rw [List.mem_toFinset] at hx ⊢
        exact h2 x hx
    _ ≤ (sys.routes.map Prod.fst).length := List.toFinset_card_le _
    _ = sys.routes.length := List.length_map _ _

theorem relax_transfer_bound {rn : ℕ} {origin : ℕ × RaptorLabel}
    {acc : List (ℕ × RaptorLabel) × List ℕ} {e : ℕ × ℤ} {n : ℕ}
    (hacc : ∀ p ∈ acc.1, p.2.transfers ≤ n) (ho : origin.2.transfers ≤ n) :
    ∀ p ∈ (relax_transfer rn origin acc e).1, p.2.transfers ≤ n := by
  simp only [relax_transfer]
  split
  · exact labels_bound_aset hacc (by simpa using ho)
  · exact hacc

theorem process_transfer_origin_bound {sys : Sys} {rn : ℕ}
    {acc : List (ℕ × RaptorLabel) × List ℕ} {origin : ℕ × RaptorLabel} {n : ℕ}
    (hacc : ∀ p ∈ acc.1, p.2.transfers ≤ n) (ho : origin.2.transfers ≤ n) :
    ∀ p ∈ (process_transfer_origin sys rn acc origin).1, p.2.transfers ≤ n := by
  simp only [process_transfer_origin]
  generalize (alookup sys.transfers origin.1).getD [] = es
  induction es generalizing acc with
  | nil => exact hacc
  | cons e rest ih =>
    rw [List.foldl_cons]
    exact ih (relax_transfer_bound hacc ho)

theorem process_transfers_bound {sys : Sys} {labels : List (ℕ × RaptorLabel)}
    {rn n : ℕ} (hb : ∀ p ∈ labels, p.2.transfers ≤ n) :
    ∀ p ∈ (process_transfers sys labels rn).1, p.2.transfers ≤ n := by
  simp only [process_transfers]
  have haux : ∀ (snap : List (ℕ × RaptorLabel))
      (acc : List (ℕ × RaptorLabel) × List ℕ),
      (∀ p ∈ snap, p.2.transfers ≤ n) → (∀ p ∈ acc.1, p.2.transfers ≤ n) →
      ∀ p ∈ (snap.foldl (process_transfer_origin sys rn) acc).1,
        p.2.transfers ≤ n := by
    intro snap
    induction snap with
    | nil => exact fun acc _ hacc => hacc
    | cons q rest ih =>
      intro acc hsnap hacc
      rw [List.foldl_cons]
      exact ih _ (fun p hp => hsnap p (List.mem_cons_of_mem _ hp))
        (process_transfer_origin_bound hacc (hsnap q (List.mem_cons_self _ _)))
  exact haux labels (labels, []) hb hb

theorem raptor_round_bound {sys : Sys} {marked : List ℕ}
    {labels : List (ℕ × RaptorLabel)} {rn n : ℕ}
    (hb : ∀ p ∈ labels, p.2.transfers ≤ n) :
    ∀ p ∈ (raptor_round sys marked labels rn).1,
      p.2.transfers ≤ n + sys.routes.length := by
  simp only [raptor_round, raptor_round_scan]
  apply process_transfers_bound
  have hnd : ((marked.flatMap
      (fun s => (alookup sys.stop_to_routes s).getD [])).foldl addNew []).Nodup :=
    foldl_addNew_nodup _ [] (List.nodup_nil)
  have hcount := countSome_le sys
    ((marked.flatMap (fun s => (alookup sys.stop_to_routes s).getD [])).foldl addNew [])
    hnd
  have hscan := foldl_scan_one_route_bound sys marked rn
    ((marked.flatMap (fun s => (alookup sys.stop_to_routes s).getD [])).foldl addNew [])
    (labels, []) n hb
  exact fun p hp => le_trans (hscan p hp) (by omega)

theorem raptor_loop_bound {sys : Sys} {rn fuel n : ℕ}
    {labels : List (ℕ × RaptorLabel)} {marked : List ℕ}
    (hb : ∀ p ∈ labels, p.2.transfers ≤ n) :
    ∀ st ∈ raptor_loop sys rn fuel labels marked,
      ∀ p ∈ st, p.2.transfers ≤ n + fuel * sys.routes.length := by
  induction fuel generalizing rn labels marked n with
  | zero => simp [raptor_loop]
  | succ fuel ih =>
    simp only [raptor_loop]
    split
    · simp
    · intro st hst
      have hmul : (fuel + 1) * sys.routes.length =
          fuel * sys.routes.length + sys.routes.length := Nat.succ_mul _ _
      rcases List.mem_cons.mp hst with h | h
      · subst h
        intro p hp
        have h2 := raptor_round_bound hb p hp
        omega
      · have := ih (raptor_round_bound hb) st h
        intro p hp
        have h2 := this p hp
        omega

theorem raptor_init_bound (access_stops : List AccessStop) (dep_time : ℤ) :
    ∀ p ∈ (raptor_init access_stops dep_time).1, p.2.transfers ≤ 0 := by
  simp only [raptor_init]
  have haux : ∀ (l : List AccessStop) (acc : List (ℕ × RaptorLabel) × List ℕ),
      (∀ p ∈ acc.1, p.2.transfers ≤ 0) →
      ∀ p ∈ (l.foldl (raptor_init_step dep_time) acc).1, p.2.transfers ≤ 0 := by
    intro l
    induction l with
    | nil => exact fun acc hacc => hacc
    | cons a rest ih =>
      intro acc hacc
      rw [List.foldl_cons]
      exact ih _ (labels_bound_aset hacc (by simp))
  exact haux access_stops ([], []) (by simp)

/-- C3 (amended): the engine bounds every label's transfer count not by
`MAX_ROUNDS - 1` but by `MAX_ROUNDS` times the number of routes: access labels
start at 0 transfers, each of the at most `|routes|` deduplicated route scans
of a round raises the maximum by at most one (every boarding, the first
included, increments the count), and transfer relaxation preserves it. -/
theorem raptor_transfers_bounded (sys : Sys) (access_stops : List AccessStop)
    (dep_time : ℤ) :
    ∀ labels ∈ raptor_history sys access_stops dep_time,
      ∀ p ∈ labels, p.2.transfers ≤ MAX_ROUNDS * sys.routes.length := by
  intro labels hl
  simp only [raptor_history] at hl
  rcases List.mem_cons.mp hl with h | h
  · subst h
    exact labels_bound_mono (by omega) (raptor_init_bound access_stops dep_time)
  · have := raptor_loop_bound (raptor_init_bound access_stops dep_time) labels h
    intro p hp
    have h2 := this p hp
    omega

/-- Witness for the amended C3 on the `C3sys` chain: the stop-5 label of the
final round (5 transfers) respects the bound `MAX_ROUNDS · |routes| = 25`. -/
theorem raptor_transfers_bounded_witness :
    C3stop5label.transfers ≤ MAX_ROUNDS * C3sys.routes.length :=
  raptor_transfers_bounded C3sys C3access 0
    (raptor_final_labels C3sys C3access 0) (by decide) (5, C3stop5label) (by decide)

-- ==========================================================================
-- Selector pipeline membership lemmas
-- ==========================================================================

theorem foldl_min_mem (key : Journey → ℚ) (rest : List Journey) (j : Journey) :
    rest.foldl (fun acc x => if key x < key acc then x else acc) j ∈ j :: rest := by
  induction rest generalizing j with
  | nil => simp
  | cons x xs ih =>
    rw [List.foldl_cons]
    rcases List.mem_cons.mp (ih (if key x < key j then x else j)) with h | h
    · rw [h]
      by_cases hc : key x < key j <;> simp [hc]
    · simp [List.mem_cons_of_mem, h]

theorem first_min_by_mem {key : Journey → ℚ} {l : List Journey} {j : Journey}
    (h : first_min_by key l = some j) : j ∈ l := by
  cases l with
  | nil => cases h
  | cons a rest =>
    simp only [first_min_by] at h
    obtain rfl := Option.some.inj h
    exact foldl_min_mem key rest a

theorem first_min_by_none {key : Journey → ℚ} {l : List Journey}
    (h : first_min_by key l = none) : l = [] := by
  cases l with
  | nil => rfl
  | cons a rest => cases h

theorem pareto_group_pick_subset {g : List Journey} {j : Journey}
    (h : j ∈ pareto_group_pick g) : j ∈ g := by
  simp only [pareto_group_pick] at h
  cases hm : first_min_by (fun j => (j.total_time : ℚ)) g with
  | none => rw [hm] at h; cases h
  | some best_time =>
    rw [hm] at h
    have hbt : best_time ∈ g := first_min_by_mem hm
    have hc : ∀ x, (first_min_by (fun j => j.total_cost) g).getD best_time = x → x ∈ g := by
      intro x hx
      cases hcm : first_min_by (fun j => j.total_cost) g with
      | none => rw [first_min_by_none hcm] at hbt; cases hbt
      | some bc =>
        rw [hcm] at hx
        simp at hx
        rw [← hx]
        exact first_min_by_mem hcm
    have ht : ∀ x, (first_min_by (fun j => (j.total_transfers : ℚ)) g).getD best_time = x →
        x ∈ g := by
      intro x hx
      cases hcm : first_min_by (fun j => (j.total_transfers : ℚ)) g with
      | none => rw [first_min_by_none hcm] at hbt; cases hbt
      | some bc =>
        rw [hcm] at hx
        simp at hx
        rw [← hx]
        exact first_min_by_mem hcm
    rcases List.mem_append.mp h with h1 | h1
    · rcases List.mem_append.mp h1 with h2 | h2
      · rw [List.mem_singleton.mp h2]
        exact hbt
      · split at h2
        · rw [List.mem_singleton.mp h2]
          exact hc _ rfl
        · cases h2
    · split at h1
      · rw [List.mem_singleton.mp h1]
        exact ht _ rfl
      · cases h1

theorem mem_dedup_fold {x : Journey} (l acc : List Journey)
    (h : x ∈ l.foldl (fun acc j =>
      if acc.any (fun e => are_journeys_similar j e) then acc else acc ++ [j]) acc) :
    x ∈ acc ∨ x ∈ l := by
  induction l generalizing acc with
  | nil => exact Or.inl h
  | cons j rest ih =>
    rw [List.foldl_cons] at h
    rcases ih _ h with h' | h'
    · split at h'
      · exact Or.inl h'
      · rcases List.mem_append.mp h' with h'' | h''
        · exact Or.inl h''
        · exact Or.inr (by simp [List.mem_singleton.mp h''])
    · exact Or.inr (List.mem_cons_of_mem _ h')

theorem pareto_optimize_shape {js : List Journey} {prefs : Preferences} {j : Journey}
    (h : j ∈ pareto_optimize js prefs) :
    ∃ j0 ∈ js, j = { j0 with pareto_rank := calculate_multi_criteria_score j0 prefs } := by
  simp only [pareto_optimize] at h
  split at h
  · cases h
  · rw [mem_pySorted] at h
    rw [List.mem_map] at h
    obtain ⟨u, hu, rfl⟩ := h
    rcases mem_dedup_fold _ [] hu with h' | h'
    · cases h'
    · rw [List.mem_flatMap] at h'
      obtain ⟨ty, _, hty⟩ := h'
      have := pareto_group_pick_subset hty
      exact ⟨u, (List.mem_filter.mp this).1, rfl⟩

theorem type_best_fold_subset {js : List Journey} {q : String × Journey}
    (h : q ∈ type_best_fold js) : q.2 ∈ js := by
  simp only [type_best_fold] at h
  suffices haux : ∀ (l : List Journey) (acc : List (String × Journey)),
      (∀ r ∈ acc, r.2 ∈ js) → (∀ x ∈ l, x ∈ js) →
      ∀ r ∈ l.foldl (fun d j =>
        match alookup d j.journey_type with
        | none => d ++ [(j.journey_type, j)]
        | some cur => if j.pareto_rank < cur.pareto_rank then aset d j.journey_type j
                      else d) acc, r.2 ∈ js by
    exact haux js [] (by simp) (fun x hx => hx) q h
  intro l
  induction l with
  | nil => exact fun acc hacc _ => hacc
  | cons x rest ih =>
    intro acc hacc hl
    rw [List.foldl_cons]
    apply ih _ ?_ (fun y hy => hl y (List.mem_cons_of_mem _ hy))
    show ∀ r ∈ (match alookup acc x.journey_type with
      | none => acc ++ [(x.journey_type, x)]
      | some cur => if x.pareto_rank < cur.pareto_rank then aset acc x.journey_type x
                    else acc), r.2 ∈ js
    have hx : x ∈ js := hl x (List.mem_cons_self _ _)
    intro r hr
    split at hr
    · rcases List.mem_append.mp hr with h' | h'
      · exact hacc r h'
      · rw [List.mem_singleton.mp h']
        exact hx
    · split at hr
      · rcases mem_aset hr with h' | h'
        · rw [h']
          exact hx
        · exact hacc r h'
      · exact hacc r hr

theorem diversify_routes_subset {js : List Journey} {m : ℕ} {j : Journey}
    (h : j ∈ diversify_routes js m) : j ∈ js := by
  simp only [diversify_routes] at h
  split at h
  · exact h
  · rw [mem_pySorted] at h
    rcases List.mem_append.mp h with h' | h'
    · rw [List.mem_map] at h'
      obtain ⟨q, hq, rfl⟩ := h'
      exact type_best_fold_subset hq
    · have := pySlice_subset _ _ h'
      exact (List.mem_filter.mp this).1

-- ==========================================================================
-- Generator lemmas and the query-level claims
-- ==========================================================================

theorem find_walk_only_routes_spec (hav : Pt → Pt → ℚ) (sys : Sys) (origin dest : Pt)
    (dep : ℤ) : ∀ j ∈ find_walk_only_routes hav sys origin dest dep,
    j.departure_time = dep ∧ j.arrival_time = dep + j.total_time ∧
    j.journey_type = "walk" := by
  intro j hj
  simp only [find_walk_only_routes] at hj
  split at hj
  · split at hj
    · rw [List.mem_singleton.mp hj]
      exact ⟨rfl, rfl, rfl⟩
    · cases hj
  · cases hj

theorem find_bike_only_routes_spec (hav : Pt → Pt → ℚ) (sys : Sys) (origin dest : Pt)
    (dep : ℤ) : ∀ j ∈ find_bike_only_routes hav sys origin dest dep,
    j.departure_time = dep ∧ j.arrival_time = dep + j.total_time ∧
    j.journey_type = "bike" := by
  intro j hj
  simp only [find_bike_only_routes] at hj
  split at hj
  · cases hj
  · rw [List.mem_flatMap] at hj
    obtain ⟨op, _, hj⟩ := hj
    split at hj
    · cases hj
    · rw [List.mem_filterMap] at hj
      obtain ⟨ep, _, heq⟩ := hj
      split at heq
      · cases heq
      · split at heq
        · cases heq
        · split at heq
          · obtain rfl := Option.some.inj heq
            exact ⟨rfl, rfl, rfl⟩
          · cases heq

theorem find_mixed_routes_spec (hav : Pt → Pt → ℚ) (sys : Sys) (now : ℤ)
    (origin dest : Pt) (dep : ℤ) : ∀ j ∈ find_mixed_routes hav sys now origin dest dep,
    j.departure_time = dep ∧ j.arrival_time = dep + j.total_time ∧
    j.journey_type = "mixed" := by
  intro j hj
  simp only [find_mixed_routes] at hj
  rw [List.mem_flatMap] at hj
  obtain ⟨bp, _, hj⟩ := hj
  split at hj
  · cases hj
  · rw [List.mem_flatMap] at hj
    obtain ⟨sp, _, hj⟩ := hj
    split at hj
    · cases hj
    · rw [List.mem_filterMap] at hj
      obtain ⟨tr, _, heq⟩ := hj
      split at heq
      · obtain rfl := Option.some.inj heq
        exact ⟨rfl, rfl, rfl⟩
      · cases heq

theorem reconstruct_journey_from_raptor_spec (hav : Pt → Pt → ℚ) (sys : Sys)
    (r : RaptorResult) (origin dest : Pt) (dep : ℤ) :
    ∀ j, reconstruct_journey_from_raptor hav sys r origin dest dep = some j →
    j.departure_time = dep ∧ j.arrival_time = dep + j.total_time ∧
    j.journey_type = "transit" := by
  intro j h
  simp only [reconstruct_journey_from_raptor] at h
  split at h
  · split at h
    · cases h
    · obtain rfl := Option.some.inj h
      exact ⟨rfl, rfl, rfl⟩
  · cases h

theorem find_transit_routes_spec (hav : Pt → Pt → ℚ) (sys : Sys) (origin dest : Pt)
    (dep : ℤ) (include_bike : Bool) (prefs : Preferences) :
    ∀ j ∈ find_transit_routes hav sys origin dest dep include_bike prefs,
    j.departure_time = dep ∧ j.arrival_time = dep + j.total_time ∧
    j.journey_type = "transit" := by
  intro j hj
  simp only [find_transit_routes] at hj
  split at hj
  · cases hj
  · rw [List.mem_filterMap] at hj
    obtain ⟨r, _, heq⟩ := hj
    exact reconstruct_journey_from_raptor_spec hav sys r origin dest dep j heq

/-- C10: every journey returned by the query entry point — whichever generator
produced it — satisfies `arrival_time = departure_time + total_time`, with
`departure_time` the parsed query departure in minutes. -/
theorem find_routes_core_time_consistent (hav : Pt → Pt → ℚ) (sys : Sys) (now : ℤ)
    (origin dest : Pt) (departure_time : String) (max_routes : ℕ)
    (include_bike : Bool) (prefs : Preferences) :
    ∀ j ∈ find_routes_core hav sys now origin dest departure_time max_routes
        include_bike prefs,
      j.departure_time = parse_time_to_minutes departure_time ∧
      j.arrival_time = j.departure_time + j.total_time := by
  intro j hj
  simp only [find_routes_core] at hj
  obtain ⟨j0, hj0, rfl⟩ := pareto_optimize_shape (diversify_routes_subset hj)
  suffices hspec : j0.departure_time = parse_time_to_minutes departure_time ∧
      j0.arrival_time = j0.departure_time + j0.total_time from hspec
  have hconv : ∀ {ty : String},
      (j0.departure_time = parse_time_to_minutes departure_time ∧
        j0.arrival_time = parse_time_to_minutes departure_time + j0.total_time ∧
        j0.journey_type = ty) →
      j0.departure_time = parse_time_to_minutes departure_time ∧
      j0.arrival_time = j0.departure_time + j0.total_time := by
    intro ty h
    exact ⟨h.1, by rw [h.1]; exact h.2.1⟩
  rcases List.mem_append.mp hj0 with h | h
  · rcases List.mem_append.mp h with h' | h'
    · rcases List.mem_append.mp h' with h'' | h''
      · exact hconv (find_walk_only_routes_spec hav sys origin dest _ j0 h'')
      · split at h''
        · exact hconv (find_bike_only_routes_spec hav sys origin dest _ j0 h'')
        · cases h''
    · exact hconv (find_transit_routes_spec hav sys origin dest _ include_bike prefs j0 h')
  · split at h
    · exact hconv (find_mixed_routes_spec hav sys now origin dest _ j0 h)
    · cases h

/-- Witness for C10 on the concrete `C10run` query (a 0.5 km walk journey,
departure "08:00" = 480 minutes). -/
theorem find_routes_core_time_consistent_witness :
    (C10run.headD walkJ1).departure_time = parse_time_to_minutes "08:00" ∧
    (C10run.headD walkJ1).arrival_time =
      (C10run.headD walkJ1).departure_time + (C10run.headD walkJ1).total_time :=
  find_routes_core_time_consistent havHalf {} 0 (0, 0) (1, 1) "08:00" 5 false {}
    (C10run.headD walkJ1) (by decide)

theorem find_nearby_stops_from_point_empty (hav : Pt → Pt → ℚ) (sys : Sys)
    (p : Pt) (m : ℚ) (h : sys.stops = []) :
    find_nearby_stops_from_point hav sys p m = [] := by
  simp [find_nearby_stops_from_point, h, pySorted]

theorem find_access_stops_empty (hav : Pt → Pt → ℚ) (sys : Sys) (p : Pt)
    (include_bike : Bool) (prefs : Preferences) (h : sys.stops = []) :
    find_access_stops hav sys p include_bike prefs = [] := by
  rw [List.eq_nil_iff_forall_not_mem]
  intro a ha
  simp only [find_access_stops] at ha
  rw [mem_pySorted] at ha
  rcases List.mem_append.mp ha with h' | h'
  · rw [find_nearby_stops_from_point_empty hav sys _ _ h] at h'
    cases h'
  · split at h'
    · rw [List.mem_flatMap] at h'
      obtain ⟨bp, _, h'⟩ := h'
      split at h'
      · cases h'
      · rw [List.mem_filterMap] at h'
        obtain ⟨sp, hsp, _⟩ := h'
        rw [find_nearby_stops_from_point_empty hav sys _ _ h] at hsp
        simp at hsp
    · cases h'

theorem find_transit_routes_empty (hav : Pt → Pt → ℚ) (sys : Sys)
    (origin dest : Pt) (dep : ℤ) (include_bike : Bool) (prefs : Preferences)
    (h : sys.stops = []) :
    find_transit_routes hav sys origin dest dep include_bike prefs = [] := by
  simp [find_transit_routes, find_access_stops_empty hav sys origin include_bike prefs h]

theorem find_mixed_routes_empty (hav : Pt → Pt → ℚ) (sys : Sys) (now : ℤ)
    (origin dest : Pt) (dep : ℤ) (h : sys.stops = []) :
    find_mixed_routes hav sys now origin dest dep = [] := by
  rw [List.eq_nil_iff_forall_not_mem]
  intro j hj
  simp only [find_mixed_routes] at hj
  rw [List.mem_flatMap] at hj
  obtain ⟨bp, _, hj⟩ := hj
  split at hj
  · cases hj
  · rw [List.mem_flatMap] at hj
    obtain ⟨sp, hsp, _⟩ := hj
    rw [find_nearby_stops_from_point_empty hav sys _ _ h] at hsp
    simp at hsp

/-- C6 (amended): a query against an empty Network Index (no stops, no routes)
does not raise a configuration error: `find_routes` returns `Except.ok` of the
computed journey list, and that list contains only road-based (walk or bike)
journeys — no transit or mixed journey can be produced. -/
theorem find_routes_empty_index (hav : Pt → Pt → ℚ) (sys : Sys) (now : ℤ)
    (origin dest : Pt) (departure_time : String) (max_routes : ℕ)
    (include_bike : Bool) (prefs : Preferences)
    (hstops : sys.stops = []) (_hroutes : sys.routes = []) :
    find_routes hav sys now origin dest departure_time max_routes include_bike prefs
      = Except.ok (find_routes_core hav sys now origin dest departure_time
          max_routes include_bike prefs) ∧
    ∀ j ∈ find_routes_core hav sys now origin dest departure_time max_routes
        include_bike prefs,
      j.journey_type = "walk" ∨ j.journey_type = "bike" := by
  refine ⟨rfl, ?_⟩
  intro j hj
  simp only [find_routes_core] at hj
  obtain ⟨j0, hj0, rfl⟩ := pareto_optimize_shape (diversify_routes_subset hj)
  suffices hs : j0.journey_type = "walk" ∨ j0.journey_type = "bike" from hs
  rcases List.mem_append.mp hj0 with h | h
  · rcases List.mem_append.mp h with h' | h'
    · rcases List.mem_append.mp h' with h'' | h''
      · exact Or.inl (find_walk_only_routes_spec hav sys origin dest _ j0 h'').2.2
      · split at h''
        · exact Or.inr (find_bike_only_routes_spec hav sys origin dest _ j0 h'').2.2
        · cases h''
    · rw [find_transit_routes_empty hav sys origin dest _ include_bike prefs hstops] at h'
      cases h'
  · split at h
    · rw [find_mixed_routes_empty hav sys now origin dest _ hstops] at h
      cases h
    · cases h

/-- C6 (counterexample): a query against the completely empty Network Index
returns `Except.ok []` — an ordinary (empty) journey list — rather than
raising a configuration error. -/
theorem find_routes_empty_index_cex :
    find_routes havFar {} 0 (0, 0) (1, 1) "09:00" 5 true {} = Except.ok [] := rfl

/-- Witness for the amended C6 at a concrete empty-index query. -/
theorem find_routes_empty_index_witness :
    find_routes havFar {} 0 (0, 0) (1, 1) "10:00" 4 true {}
      = Except.ok (find_routes_core havFar {} 0 (0, 0) (1, 1) "10:00" 4 true {}) ∧
    ∀ j ∈ find_routes_core havFar {} 0 (0, 0) (1, 1) "10:00" 4 true {},
      j.journey_type = "walk" ∨ j.journey_type = "bike" :=
  find_routes_empty_index havFar {} 0 (0, 0) (1, 1) "10:00" 4 true {} rfl rfl

/-- C8 (amended): whenever the number of journey categories present among the
candidates is at most `max_routes`, diversification returns at most
`max_routes` journeys; the counterexample shows the bound fails when the
categories outnumber `max_routes`. -/
theorem diversify_routes_cap (journeys : List Journey) (max_routes : ℕ)
    (h : (type_best_fold journeys).length ≤ max_routes) :
    (diversify_routes journeys max_routes).length ≤ max_routes := by
  by_cases hlen : journeys.length ≤ max_routes
  · simp [diversify_routes, hlen]
  · simp only [diversify_routes, if_neg hlen]
    rw [length_pySorted, List.length_append, List.length_map]
    have hsl := pySlice_length_le
      (journeys.filter (fun j => j ∉ (type_best_fold journeys).map Prod.snd))
      ((max_routes : ℤ) - ((type_best_fold journeys).map Prod.snd).length)
      (by rw [List.length_map]; omega)
    rw [List.length_map] at hsl
    omega

/-- Witness for the amended C8: two categories among three candidates fit the
cap `max_routes = 2`. -/
theorem diversify_routes_cap_witness :
    (type_best_fold [walkJ1, bikeJ1, walkJ2]).length ≤ 2 ∧
    (diversify_routes [walkJ1, bikeJ1, walkJ2] 2).length ≤ 2 :=
  ⟨by decide, diversify_routes_cap [walkJ1, bikeJ1, walkJ2] 2 (by decide)⟩

/-- C1: `_is_label_better` accepts a candidate label exactly when the
specification's dominance rule holds: (a) no incumbent, (b) strictly earlier
arrival, (c) equal arrival with strictly fewer transfers, (d) equal arrival
and transfers with strictly lower cost, or (e) arrival at most 5 minutes
later with strictly fewer transfers. -/
theorem is_label_better_iff_spec_dominates (a : ℤ) (t : ℕ) (c : ℚ)
    (inc : Option RaptorLabel) :
    is_label_better a t c inc = true ↔ spec_dominates a t c inc := by
  cases inc with
  | none => simp [is_label_better, spec_dominates]
  | some l =>
    simp only [is_label_better, spec_dominates]
    by_cases h1 : a < l.arrival_time <;>
      by_cases h2 : a = l.arrival_time ∧ t < l.transfers <;>
      by_cases h3 : a = l.arrival_time ∧ t = l.transfers ∧ c < l.cost <;>
      by_cases h4 : a ≤ l.arrival_time + 5 ∧ t < l.transfers <;>
      simp [h1, h2, h3, h4]
